import Mathlib

/-!
# Buzzer driver (`libraries/AP_Notify/Buzzer.cpp`)

A shallow embedding of `Buzzer::init`, `Buzzer::update`, `Buzzer::on` and
`Buzzer::play_pattern`, followed by theorems about them.

The object state is a record, every member function is a function from state
to state, and the calls made on `hal.gpio` are appended to a log kept in the
record, so that "a hardware write is issued" is a statement about that log.
-/

/-- The enumeration `BuzzerPattern`: one constructor for `NONE` and one for every
case label of the switch in `Buzzer::update`.  `OTHER` stands for any further
enumerator of the type, which that switch sends to its `default:` branch. -/
inductive BuzzerPattern where
  | NONE
  | SINGLE_BUZZ
  | DOUBLE_BUZZ
  | ARMING_BUZZ
  | BARO_GLITCH
  | EKF_BAD
  | RADIOLOST_BUZZ
  | RADIOBACK_BUZZ
  | INITIALIZE_BUZZ
  | OTHER
  deriving DecidableEq, Repr

/-- Modelled from the spec: `Buzzer.h`, which declares the integer types of
`_counter`, `_pattern_counter` and `_arming_buzz_start_ms`, is not among the
sources, and the spec only calls them integers.  Each type is represented by its
modulus: an unsigned type of `w` bits has modulus `2 ^ w`, and incrementing or
subtracting wraps modulo it. -/
structure Header where
  counterMod : Nat
  patternCounterMod : Nat
  millisMod : Nat
  deriving DecidableEq, Repr

/-- The header instance with 8-bit counters and a 32-bit millisecond clock. -/
def Header.std : Header := ⟨2 ^ 8, 2 ^ 8, 2 ^ 32⟩

/-- Modelled from the spec: the macro `BUZZER_ARMING_BUZZ_MS` is defined in the
absent `Buzzer.h`; the spec gives the arming buzz a length of 3000 ms. -/
def BUZZER_ARMING_BUZZ_MS : Nat := 3000

/-- `HAL_BUZZER_ON` as defined at the top of `Buzzer.cpp`. -/
def HAL_BUZZER_ON : Nat := 1

/-- `HAL_BUZZER_OFF` as defined at the top of `Buzzer.cpp`. -/
def HAL_BUZZER_OFF : Nat := 0

/-- A call on `hal.gpio`. -/
inductive GpioOp where
  | pinMode (pin : Nat)
  | write (pin : Nat) (value : Nat)
  deriving DecidableEq, Repr

/-- The bit field `_flags`.  The member `on` is written `on_`, `on` being a
reserved word. -/
structure buzzer_flag_type where
  on_ : Bool
  armed : Bool
  failsafe_battery : Bool
  failsafe_radio : Bool
  was_armed : Bool
  initialize_done : Bool
  ekf_bad : Bool
  deriving DecidableEq, Repr

/-- The members of a `Buzzer` object, with the log of the calls it has made on
`hal.gpio` (oldest first). -/
structure Buzzer where
  flags : buzzer_flag_type
  counter : Nat
  pattern : BuzzerPattern
  pattern_counter : Nat
  arming_buzz_start_ms : Nat
  pin : Nat
  hal : List GpioOp
  deriving DecidableEq, Repr

/-- What one call of `update` reads from outside the object: `AP_Notify::flags`,
`AP_Notify::events` and the value of `AP_HAL::millis()`. -/
structure Notify where
  armed : Bool
  failsafe_battery : Bool
  failsafe_radio : Bool
  ekf_bad : Bool
  vehicle_lost : Bool
  initialising : Bool
  arming_failed : Bool
  millis : Nat
  deriving DecidableEq, Repr

namespace Buzzer

open BuzzerPattern

/-- `Buzzer::on` (written `on_`): turns the buzzer on or off. -/
def on_ (turn_on : Bool) (s : Buzzer) : Buzzer :=
  if s.flags.on_ = turn_on then s
  else
    { s with
      flags := { s.flags with on_ := turn_on }
      hal := s.hal ++ [GpioOp.write s.pin (if turn_on then HAL_BUZZER_ON else HAL_BUZZER_OFF)] }

/-- `Buzzer::play_pattern`: plays the defined buzzer pattern. -/
def play_pattern (pattern_id : BuzzerPattern) (s : Buzzer) : Buzzer :=
  { s with pattern := pattern_id, pattern_counter := 0 }

/-- `Buzzer::init`.  `enabled` is `pNotify->buzzer_enabled()`, `hal_pin` is
`HAL_BUZZER_PIN` when the board defines it, `buzz_pin` is
`pNotify->get_buzz_pin()`, and `n` holds `AP_Notify::flags`.  The result is the
returned value and the state left behind. -/
def init (enabled : Bool) (hal_pin : Option Nat) (buzz_pin : Nat) (n : Notify)
    (s : Buzzer) : Bool × Buzzer :=
  if enabled = false then (false, s)
  else
    let s := { s with pin := match hal_pin with
                              | some p => p
                              | none => buzz_pin }
    if s.pin = 0 then (false, s)
    else
      let s := { s with hal := s.hal ++ [GpioOp.pinMode s.pin] }
      let s := on_ false s
      let s := { s with flags := { s.flags with
                  armed := n.armed
                  failsafe_battery := n.failsafe_battery
                  failsafe_radio := false
                  was_armed := false
                  initialize_done := false } }
      (true, s)

/-- Lines 76 to 232 of `Buzzer::update`: "complete currently played pattern".
The Boolean is `true` when the source executes `return` inside the switch and
`false` when control goes on to the trigger checks below it. -/
def update_pattern (H : Header) (n : Notify) (s : Buzzer) : Buzzer × Bool :=
  if s.pattern ≠ NONE then
    let s := { s with pattern_counter := (s.pattern_counter + 1) % H.patternCounterMod }
    match s.pattern with
    | SINGLE_BUZZ =>
      if s.pattern_counter = 1 then (on_ true s, true)
      else ({ on_ false s with pattern := NONE }, true)
    | DOUBLE_BUZZ =>
      match s.pattern_counter with
      | 1 => (on_ true s, true)
      | 2 => (on_ false s, true)
      | 3 => (on_ true s, true)
      | _ => ({ on_ false s with pattern := NONE }, true)
    | ARMING_BUZZ =>
      if s.pattern_counter = 1 then
        (on_ true { s with arming_buzz_start_ms := n.millis }, true)
      else if (n.millis + H.millisMod - s.arming_buzz_start_ms) % H.millisMod
                ≥ BUZZER_ARMING_BUZZ_MS then
        ({ on_ false { s with arming_buzz_start_ms := 0 } with pattern := NONE }, true)
      else (s, true)
    | BARO_GLITCH =>
      match s.pattern_counter with
      | 1 | 3 | 5 | 7 | 9 => (on_ true s, true)
      | 2 | 4 | 6 | 8 => (on_ false s, true)
      | 10 => ({ on_ false s with pattern := NONE }, true)
      | _ => (s, true)
    | EKF_BAD =>
      match s.pattern_counter with
      | 1 | 5 | 8 | 10 => (on_ true s, true)
      | 4 | 7 | 9 => (on_ false s, true)
      | 11 => ({ on_ false s with pattern := NONE }, true)
      | _ => (s, true)
    | RADIOLOST_BUZZ =>
      if s.pattern_counter ≠ 2 then
        if s.pattern_counter ≥ 10 then
          let s := on_ false s
          if s.flags.was_armed then
            if s.pattern_counter ≥ 20 then ({ s with pattern_counter := 0 }, false)
            else (s, false)
          else ({ s with pattern := NONE }, false)
        else (on_ true s, false)
      else (on_ false s, false)
    | RADIOBACK_BUZZ =>
      if s.pattern_counter ≠ 5 then
        if s.pattern_counter ≥ 7 then (on_ false { s with pattern := NONE }, false)
        else (on_ true s, false)
      else (on_ false s, false)
    | INITIALIZE_BUZZ =>
      match s.pattern_counter with
      | 1 => (on_ true s, false)
      | 2 => (on_ false s, false)
      | 3 => (on_ true s, false)
      | 4 => (on_ false s, false)
      | 5 => (on_ true s, false)
      | _ => ({ on_ false s with pattern := NONE }, false)
    | _ => (s, false)
  else (s, false)

/-- Lines 234 to 288 of `Buzzer::update`: the checks that start a pattern. -/
def update_triggers (n : Notify) (s : Buzzer) : Buzzer :=
  -- check radio failsafe change
  if s.flags.failsafe_radio ≠ n.failsafe_radio ∧ n.initialising = false then
    let s := { s with flags := { s.flags with failsafe_radio := n.failsafe_radio } }
    play_pattern (if s.flags.failsafe_radio then RADIOLOST_BUZZ else RADIOBACK_BUZZ) s
  -- check if need to signal system initialization complete
  else if s.flags.initialize_done = false ∧ n.initialising = false then
    let s := { s with flags := { s.flags with initialize_done := true } }
    play_pattern INITIALIZE_BUZZ s
  -- if playing continous radio-failsafe tones then ignore other notifications
  else if s.flags.failsafe_radio = true ∧ s.flags.was_armed = true then s
  -- check if armed status has changed
  else if s.flags.armed ≠ n.armed then
    let s := { s with flags := { s.flags with armed := n.armed } }
    if s.flags.armed then
      play_pattern ARMING_BUZZ { s with flags := { s.flags with was_armed := true } }
    else play_pattern SINGLE_BUZZ s
  -- check ekf bad
  else if s.flags.ekf_bad ≠ n.ekf_bad then
    let s := { s with flags := { s.flags with ekf_bad := n.ekf_bad } }
    if s.flags.ekf_bad then play_pattern EKF_BAD s else s
  else
    -- if vehicle lost was enabled, starting beep
    let s := if n.vehicle_lost then play_pattern DOUBLE_BUZZ s else s
    -- if battery failsafe constantly single buzz
    if n.failsafe_battery then play_pattern SINGLE_BUZZ s else s

/-- `Buzzer::update`, called at 50 Hz. -/
def update (H : Header) (n : Notify) (s : Buzzer) : Buzzer :=
  -- check for arming failed event
  let s := if n.arming_failed then play_pattern SINGLE_BUZZ s else s
  -- reduce 50hz call down to 10hz
  let s := { s with counter := (s.counter + 1) % H.counterMod }
  if s.counter < 5 then s
  else
    let s := { s with counter := 0 }
    -- complete currently played pattern
    let r := update_pattern H n s
    if r.2 then r.1 else update_triggers n r.1

/-- The calls of `update` made one after the other on the inputs of a list,
first element first. -/
def run (H : Header) (s : Buzzer) : List Notify → Buzzer
  | [] => s
  | n :: ns => run H (update H n s) ns

/-- A call of `update` on `s` is a decimated tick: the incremented `_counter` is
not below 5, so the call goes past the `return` of line 72. -/
def isTick (H : Header) (s : Buzzer) : Prop :=
  ¬ (s.counter + 1) % H.counterMod < 5

instance (H : Header) (s : Buzzer) : Decidable (isTick H s) :=
  inferInstanceAs (Decidable (¬ (s.counter + 1) % H.counterMod < 5))

/-- An idle, silent buzzer one call before a decimated tick: no pattern, output
low, initialisation already signalled, every other latch clear, pin 7. -/
def idle4 : Buzzer :=
  { flags := { on_ := false, armed := false, failsafe_battery := false,
               failsafe_radio := false, was_armed := false, initialize_done := true,
               ekf_bad := false }
    counter := 4
    pattern := NONE
    pattern_counter := 0
    arming_buzz_start_ms := 0
    pin := 7
    hal := [] }

/-- An input with every flag and event clear, at time 0. -/
def quiet : Notify :=
  { armed := false, failsafe_battery := false, failsafe_radio := false, ekf_bad := false,
    vehicle_lost := false, initialising := false, arming_failed := false, millis := 0 }

/-- The elapsed time of the claim about the arming buzz, `(t - start) mod 2^32`,
computed in the integers. -/
def elapsed32 (t start : Nat) : Int := ((t : Int) - (start : Int)) % 2 ^ 32

/-- Four inputs with every flag clear: the calls between two decimated ticks. -/
def quiet4 : List Notify := [quiet, quiet, quiet, quiet]

/-- Lines 63 to 67 of `Buzzer::update`: the check for the arming-failed event. -/
def update_event (n : Notify) (s : Buzzer) : Buzzer :=
  if n.arming_failed then play_pattern SINGLE_BUZZ s else s

/-- The number of calls, along the calls of `update` on the inputs of a list, at
which the "initialize done" latch goes from clear to set. -/
def initFirings (H : Header) : Buzzer → List Notify → Nat
  | _, [] => 0
  | s, n :: ns =>
    (if s.flags.initialize_done = false ∧ (update H n s).flags.initialize_done = true
      then 1 else 0) + initFirings H (update H n s) ns

/-- A buzzer playing `RADIOLOST_BUZZ` at step 19, one call before a decimated
tick: armed, ever armed, radio failsafe latched, initialisation signalled. -/
def lost4 : Buzzer :=
  { flags := { on_ := false, armed := true, failsafe_battery := false,
               failsafe_radio := true, was_armed := true, initialize_done := true,
               ekf_bad := false }
    counter := 4
    pattern := RADIOLOST_BUZZ
    pattern_counter := 19
    arming_buzz_start_ms := 0
    pin := 7
    hal := [] }

/-- An input during a radio failsafe on which the vehicle is reported disarmed,
the EKF bad, the vehicle lost and the battery failsafe set. -/
def radio_lost_all_set : Notify :=
  { armed := false, failsafe_battery := true, failsafe_radio := true, ekf_bad := true,
    vehicle_lost := true, initialising := false, arming_failed := false, millis := 0 }

/-- The idle buzzer of `idle4` before the end of initialisation has been
signalled: the "initialize done" latch is clear. -/
def boot4 : Buzzer :=
  { idle4 with flags := { idle4.flags with initialize_done := false } }

/-- The effect of one or more calls on the output: either the level and the log
of hardware calls are as before, or the level has changed and the log has
grown by exactly one write, on the buzzer pin, of the new level. -/
def AtMostOneWrite (s s' : Buzzer) : Prop :=
  (s'.flags.on_ = s.flags.on_ ∧ s'.hal = s.hal) ∨
  (s'.flags.on_ ≠ s.flags.on_ ∧
    s'.hal = s.hal ++
      [GpioOp.write s.pin (if s'.flags.on_ then HAL_BUZZER_ON else HAL_BUZZER_OFF)])

/-- A buzzer object on which nothing has been called yet: every member zero. -/
def boot0 : Buzzer :=
  { flags := { on_ := false, armed := false, failsafe_battery := false,
               failsafe_radio := false, was_armed := false, initialize_done := false,
               ekf_bad := false }
    counter := 0
    pattern := NONE
    pattern_counter := 0
    arming_buzz_start_ms := 0
    pin := 0
    hal := [] }

/-- The status at a boot with the battery failsafe already set: still
initialising, every other flag clear. -/
def boot_battery : Notify :=
  { armed := false, failsafe_battery := true, failsafe_radio := false, ekf_bad := false,
    vehicle_lost := false, initialising := true, arming_failed := false, millis := 0 }

/-- The output levels after decimated ticks 1 to 11 of the claim about
`EKF_BAD`: on, on, on, off, on, on, off, on, off, on, off. -/
def EKF_BAD_levels : List Bool :=
  [true, true, true, false, true, true, false, true, false, true, false]

/-- The output levels that the switch of `Buzzer::update` gives `BARO_GLITCH`
after decimated ticks 1 to 10: on at 1, 3, 5, 7 and 9, off at 2, 4, 6, 8
and 10. -/
def BARO_GLITCH_levels : List Bool :=
  [true, false, true, false, true, false, true, false, true, false]

/-- The output levels of `RADIOLOST_BUZZ` after decimated ticks 1 to 10 as the
code gives them, a short tone then a long one: on, off, then on seven times,
then off. -/
def RADIOLOST_levels : List Bool :=
  [true, false, true, true, true, true, true, true, true, false]

/-- An input during a radio failsafe with the vehicle armed and nothing else to
report. -/
def radio_quiet : Notify :=
  { armed := true, failsafe_battery := false, failsafe_radio := true, ekf_bad := false,
    vehicle_lost := false, initialising := false, arming_failed := false, millis := 0 }

/-- Four inputs `radio_quiet`: the calls between two decimated ticks. -/
def radio_quiet4 : List Notify := [radio_quiet, radio_quiet, radio_quiet, radio_quiet]

/-- The inputs that the claim about the `RADIOLOST_BUZZ` table calls quiet, for
a buzzer whose latches are those of `s`: `failsafe_radio` set, `armed` and
`ekf_bad` equal to their latches, `vehicle_lost`, `failsafe_battery` and the
arming-failed event clear. -/
def QuietFor (s : Buzzer) (n : Notify) : Prop :=
  n.failsafe_radio = true ∧ n.armed = s.flags.armed ∧ n.ekf_bad = s.flags.ekf_bad ∧
  n.vehicle_lost = false ∧ n.failsafe_battery = false ∧ n.arming_failed = false

instance (s : Buzzer) (n : Notify) : Decidable (QuietFor s n) :=
  inferInstanceAs (Decidable (_ ∧ _))

/-- A buzzer on which `RADIOLOST_BUZZ` has just been started, one call before a
decimated tick: `lost4` at step 0. -/
def lost_start : Buzzer := { lost4 with pattern_counter := 0 }

/-- `ARMING_BUZZ` just started, one call before a decimated tick: the idle buzzer
of `idle4` with pattern `ARMING_BUZZ` at step 0. -/
def arm_start : Buzzer := { idle4 with pattern := ARMING_BUZZ }

/-- `ARMING_BUZZ` after its first decimated tick at time 1234, one call before
the next decimated tick: step 1, start 1234, output high. -/
def arm_held : Buzzer :=
  { idle4 with pattern := ARMING_BUZZ, pattern_counter := 1, arming_buzz_start_ms := 1234,
               flags := { idle4.flags with on_ := true } }

/-- 1280 calls with every flag clear and the clock standing at 0: from
`_counter` 4 they contain 256 decimated ticks and end one call before the
257th. -/
def frozen1280 : List Notify := List.replicate 1280 quiet

/-! ## Theorems -/

/-! ### Facts about `on_`, `play_pattern` and the two halves of `update` -/

@[simp] theorem on__flags_on (b : Bool) (s : Buzzer) : (on_ b s).flags.on_ = b := by
  unfold on_; split <;> simp_all

theorem on__flags (b : Bool) (s : Buzzer) : (on_ b s).flags = { s.flags with on_ := b } := by
  unfold on_; split
  · next h => cases s; rename_i f _ _ _ _ _ _; cases f; simp_all
  · rfl

@[simp] theorem on__pattern (b : Bool) (s : Buzzer) : (on_ b s).pattern = s.pattern := by
  unfold on_; split <;> rfl

@[simp] theorem on__pattern_counter (b : Bool) (s : Buzzer) :
    (on_ b s).pattern_counter = s.pattern_counter := by
  unfold on_; split <;> rfl

@[simp] theorem on__counter (b : Bool) (s : Buzzer) : (on_ b s).counter = s.counter := by
  unfold on_; split <;> rfl

@[simp] theorem on__start (b : Bool) (s : Buzzer) :
    (on_ b s).arming_buzz_start_ms = s.arming_buzz_start_ms := by
  unfold on_; split <;> rfl

@[simp] theorem on__pin (b : Bool) (s : Buzzer) : (on_ b s).pin = s.pin := by
  unfold on_; split <;> rfl

/-- A call that is not a decimated tick and sees no arming-failed event only
increments `_counter`. -/
theorem update_of_not_tick (H : Header) (n : Notify) (s : Buzzer)
    (haf : n.arming_failed = false) (h : ¬ isTick H s) :
    update H n s = { s with counter := (s.counter + 1) % H.counterMod } := by
  unfold isTick at h
  simp only [not_not] at h
  simp [update, haf, h]

/-- A decimated tick without an arming-failed event clears `_counter`, steps the
pattern and, unless the pattern's case returned, runs the trigger checks. -/
theorem update_of_tick (H : Header) (n : Notify) (s : Buzzer)
    (haf : n.arming_failed = false) (h : isTick H s) :
    update H n s =
      if (update_pattern H n { s with counter := 0 }).2
      then (update_pattern H n { s with counter := 0 }).1
      else update_triggers n (update_pattern H n { s with counter := 0 }).1 := by
  unfold isTick at h
  simp [update, haf, h]

/-- Stepping a pattern changes no flag other than `on`. -/
theorem update_pattern_flags (H : Header) (n : Notify) (s : Buzzer) :
    (update_pattern H n s).1.flags =
      { s.flags with on_ := (update_pattern H n s).1.flags.on_ } := by
  obtain ⟨f, c, p, pc, st, pin, hal⟩ := s
  cases p <;> simp [update_pattern] <;> (repeat' split) <;> simp [on__flags]

/-- Stepping a pattern keeps it or ends it. -/
theorem update_pattern_pattern (H : Header) (n : Notify) (s : Buzzer) :
    (update_pattern H n s).1.pattern = s.pattern ∨ (update_pattern H n s).1.pattern = NONE := by
  obtain ⟨f, c, p, pc, st, pin, hal⟩ := s
  cases p <;> simp [update_pattern] <;> (repeat' split) <;> simp

/-- The cases of the switch that end in `return` are exactly those of
`SINGLE_BUZZ`, `DOUBLE_BUZZ`, `ARMING_BUZZ`, `BARO_GLITCH` and `EKF_BAD`. -/
theorem update_pattern_snd (H : Header) (n : Notify) (s : Buzzer) :
    (update_pattern H n s).2 = true ↔
      (s.pattern = SINGLE_BUZZ ∨ s.pattern = DOUBLE_BUZZ ∨ s.pattern = ARMING_BUZZ ∨
        s.pattern = BARO_GLITCH ∨ s.pattern = EKF_BAD) := by
  obtain ⟨f, c, p, pc, st, pin, hal⟩ := s
  cases p <;> simp [update_pattern] <;> (repeat' split) <;> simp

/-- Except for `RADIOLOST_BUZZ`, stepping an active pattern leaves
`_pattern_counter` incremented. -/
theorem update_pattern_step (H : Header) (n : Notify) (s : Buzzer)
    (h1 : s.pattern ≠ NONE) (h2 : s.pattern ≠ RADIOLOST_BUZZ) :
    (update_pattern H n s).1.pattern_counter = (s.pattern_counter + 1) % H.patternCounterMod := by
  obtain ⟨f, c, p, pc, st, pin, hal⟩ := s
  cases p <;> simp [update_pattern] at h1 h2 ⊢ <;> (repeat' split) <;> simp

/-! ### Sequences of calls -/

theorem run_append (H : Header) (s : Buzzer) (l1 l2 : List Notify) :
    run H s (l1 ++ l2) = run H (run H s l1) l2 := by
  induction l1 generalizing s with
  | nil => rfl
  | cons n l ih => simp [run, ih]

theorem isTick_of_counter_eq_four (H : Header) (hc : 5 < H.counterMod) (s : Buzzer)
    (h : s.counter = 4) : isTick H s := by
  unfold isTick
  rw [h, Nat.mod_eq_of_lt hc]
  omega

theorem not_isTick_of_counter_lt_four (H : Header) (hc : 5 < H.counterMod) (s : Buzzer)
    (h : s.counter < 4) : ¬ isTick H s := by
  unfold isTick
  rw [Nat.mod_eq_of_lt (by omega)]
  omega

/-- Calls that see no arming-failed event and stay below the decimation
threshold only count. -/
theorem run_skips (H : Header) (hc : 5 < H.counterMod) (l : List Notify) (s : Buzzer)
    (haf : ∀ n ∈ l, n.arming_failed = false) (h : s.counter + l.length < 5) :
    run H s l = { s with counter := s.counter + l.length } := by
  induction l generalizing s with
  | nil => rfl
  | cons n l ih =>
    have h' : s.counter + 1 + l.length < 5 := by simp at h; omega
    have hn : n.arming_failed = false := haf n (List.mem_cons_self n l)
    have hs : s.counter < 4 := by omega
    rw [run, update_of_not_tick H n s hn (not_isTick_of_counter_lt_four H hc s hs),
      Nat.mod_eq_of_lt (by omega), ih _ (fun m hm => haf m (List.mem_cons_of_mem n hm)) h']
    simp
    omega

/-- The calls that bring `_counter` up to 4, followed by one more call, amount to
that last call made at counter 4. -/
theorem run_to_tick (H : Header) (hc : 5 < H.counterMod) (l : List Notify) (n : Notify)
    (s : Buzzer) (haf : ∀ m ∈ l, m.arming_failed = false) (h : s.counter + l.length = 4) :
    run H s (l ++ [n]) = update H n { s with counter := 4 } := by
  rw [run_append, run_skips H hc l s haf (by omega), h]
  rfl

theorem two_mod_ne_one (M : Nat) (hM : 1 < M) : 2 % M ≠ 1 := by
  rcases Nat.lt_or_ge 2 M with h | h
  · rw [Nat.mod_eq_of_lt h]; omega
  · have : M = 2 := by omega
    subst this; decide

theorem succ_mod_ne_one (M c : Nat) (h1 : 0 < c) (h2 : c < M) : (c + 1) % M ≠ 1 := by
  rcases Nat.lt_or_ge (c + 1) M with h | h
  · rw [Nat.mod_eq_of_lt h]; omega
  · have : c + 1 = M := by omega
    rw [this, Nat.mod_self]; omega

/-! ### The arming buzz -/

/-- With a 32-bit clock the test of line 115 is the test
`(t - start) mod 2^32 >= 3000`. -/
theorem elapsed32_iff (H : Header) (hms : H.millisMod = 2 ^ 32) (t start : Nat)
    (hs : start < 2 ^ 32) :
    (t + H.millisMod - start) % H.millisMod ≥ BUZZER_ARMING_BUZZ_MS ↔
      elapsed32 t start ≥ 3000 := by
  unfold elapsed32 BUZZER_ARMING_BUZZ_MS
  rw [hms]
  norm_num at hs ⊢
  omega

theorem arming_first_tick (H : Header) (n : Notify) (s : Buzzer)
    (hM : 1 < H.patternCounterMod)
    (hp : s.pattern = ARMING_BUZZ) (hs : s.pattern_counter = 0)
    (haf : n.arming_failed = false) (ht : isTick H s) :
    update H n s = on_ true { s with counter := 0, pattern_counter := 1,
                                     arming_buzz_start_ms := n.millis } := by
  have h1 : 1 % H.patternCounterMod = 1 := Nat.mod_eq_of_lt hM
  rw [update_of_tick H n s haf ht]
  simp [update_pattern, hp, hs, h1]

theorem arming_later_tick (H : Header) (n : Notify) (s : Buzzer)
    (hp : s.pattern = ARMING_BUZZ) (h0 : 0 < s.pattern_counter)
    (hr : s.pattern_counter < H.patternCounterMod)
    (haf : n.arming_failed = false) (ht : isTick H s) :
    update H n s =
      if (n.millis + H.millisMod - s.arming_buzz_start_ms) % H.millisMod ≥ BUZZER_ARMING_BUZZ_MS
      then { on_ false { s with counter := 0,
                                pattern_counter := (s.pattern_counter + 1) % H.patternCounterMod,
                                arming_buzz_start_ms := 0 } with pattern := NONE }
      else { s with counter := 0,
                    pattern_counter := (s.pattern_counter + 1) % H.patternCounterMod } := by
  have h1 := succ_mod_ne_one H.patternCounterMod s.pattern_counter h0 hr
  rw [update_of_tick H n s haf ht]
  simp [update_pattern, hp, h1]
  split <;> simp

/-- While `ARMING_BUZZ` is held (step above 0, output high, start `t0`), calls
whose clock readings are all less than 3000 ms after `t0` keep it held, as
long as the step counter does not wrap. -/
theorem arming_run_holds (H : Header) (hms : H.millisMod = 2 ^ 32) (t0 : Nat)
    (ht0 : t0 < 2 ^ 32) (l : List Notify) :
    ∀ s : Buzzer, s.pattern = ARMING_BUZZ → 0 < s.pattern_counter →
      s.arming_buzz_start_ms = t0 → s.flags.on_ = true →
      (∀ n ∈ l, n.arming_failed = false ∧ elapsed32 n.millis t0 < 3000) →
      s.pattern_counter + l.length < H.patternCounterMod →
      (run H s l).pattern = ARMING_BUZZ ∧ 0 < (run H s l).pattern_counter ∧
      (run H s l).arming_buzz_start_ms = t0 ∧ (run H s l).flags.on_ = true := by
  induction l with
  | nil => intro s hp h0 hst hon _ _; exact ⟨hp, h0, hst, hon⟩
  | cons n l ih =>
    intro s hp h0 hst hon hl hb
    have hn := hl n (List.mem_cons_self n l)
    have hl' : ∀ m ∈ l, m.arming_failed = false ∧ elapsed32 m.millis t0 < 3000 :=
      fun m hm => hl m (List.mem_cons_of_mem n hm)
    simp only [List.length_cons] at hb
    rw [run]
    by_cases ht : isTick H s
    · have hlt : ¬ (n.millis + H.millisMod - s.arming_buzz_start_ms) % H.millisMod
          ≥ BUZZER_ARMING_BUZZ_MS := by
        rw [elapsed32_iff H hms n.millis _ (by rw [hst]; exact ht0), hst]
        have := hn.2
        omega
      rw [arming_later_tick H n s hp h0 (by omega) hn.1 ht, if_neg hlt,
        Nat.mod_eq_of_lt (by omega)]
      exact ih _ hp (by simp) hst hon hl' (by simp; omega)
    · rw [update_of_not_tick H n s hn.1 ht]
      exact ih _ hp h0 hst hon hl' (by simp; omega)

/-! ### The structure of one call -/

theorem update_event_flags (n : Notify) (s : Buzzer) : (update_event n s).flags = s.flags := by
  unfold update_event play_pattern; split <;> rfl

theorem update_event_pattern (n : Notify) (s : Buzzer) :
    (update_event n s).pattern = s.pattern ∨ (update_event n s).pattern = SINGLE_BUZZ := by
  unfold update_event play_pattern; split <;> simp

/-- The three ways through `update`: the `return` of line 72, a `return` inside
the switch, or the trigger checks. -/
theorem update_cases (H : Header) (n : Notify) (s : Buzzer) :
    (¬ isTick H s ∧
      update H n s = { update_event n s with counter := (s.counter + 1) % H.counterMod }) ∨
    (isTick H s ∧ (update_pattern H n { update_event n s with counter := 0 }).2 = true ∧
      update H n s = (update_pattern H n { update_event n s with counter := 0 }).1) ∨
    (isTick H s ∧ (update_pattern H n { update_event n s with counter := 0 }).2 = false ∧
      update H n s =
        update_triggers n (update_pattern H n { update_event n s with counter := 0 }).1) := by
  have e : update H n s =
      if (s.counter + 1) % H.counterMod < 5
      then { update_event n s with counter := (s.counter + 1) % H.counterMod }
      else if (update_pattern H n { update_event n s with counter := 0 }).2
        then (update_pattern H n { update_event n s with counter := 0 }).1
        else update_triggers n (update_pattern H n { update_event n s with counter := 0 }).1 := by
    unfold update update_event
    cases n.arming_failed <;> simp [play_pattern]
  unfold isTick
  rw [e]
  by_cases h : (s.counter + 1) % H.counterMod < 5
  · left
    simp [h]
  · right
    by_cases h2 : (update_pattern H n { update_event n s with counter := 0 }).2 = true
    · left
      simp [h, h2]
    · right
      simp only [Bool.not_eq_true] at h2
      simp [h, h2]

theorem update_arming_failed_not_tick (H : Header) (n : Notify) (s : Buzzer)
    (haf : n.arming_failed = true) (h : ¬ isTick H s) :
    update H n s = { s with pattern := SINGLE_BUZZ, pattern_counter := 0,
                            counter := (s.counter + 1) % H.counterMod } := by
  unfold isTick at h
  simp only [not_not] at h
  simp [update, haf, h, play_pattern]

theorem update_arming_failed_tick (H : Header) (n : Notify) (s : Buzzer)
    (haf : n.arming_failed = true) (h : isTick H s) (hM : 1 < H.patternCounterMod) :
    update H n s = on_ true { s with pattern := SINGLE_BUZZ, pattern_counter := 1,
                                     counter := 0 } := by
  unfold isTick at h
  have h1 : 1 % H.patternCounterMod = 1 := Nat.mod_eq_of_lt hM
  simp [update, haf, h, play_pattern, update_pattern, h1]

/-! ### The trigger checks -/

theorem update_triggers_on (n : Notify) (s : Buzzer) :
    (update_triggers n s).flags.on_ = s.flags.on_ := by
  unfold update_triggers
  simp only [play_pattern]
  (repeat' split) <;> simp

theorem update_triggers_pattern_ne_none (n : Notify) (s : Buzzer) (h : s.pattern ≠ NONE) :
    (update_triggers n s).pattern ≠ NONE := by
  unfold update_triggers
  simp only [play_pattern]
  (repeat' split) <;> simp [h]

theorem update_triggers_step_zero (n : Notify) (s : Buzzer) (h : s.pattern_counter = 0) :
    (update_triggers n s).pattern_counter = 0 := by
  unfold update_triggers
  simp only [play_pattern]
  (repeat' split) <;> simp [h]

theorem update_triggers_was_armed (n : Notify) (s : Buzzer) (h : s.flags.was_armed = true) :
    (update_triggers n s).flags.was_armed = true := by
  unfold update_triggers
  simp only [play_pattern]
  (repeat' split) <;> simp [h]

/-- With the radio failsafe latched and still set, the vehicle ever armed and
the initialisation signalled, the trigger checks change nothing. -/
theorem update_triggers_suppressed (n : Notify) (s : Buzzer)
    (hr : s.flags.failsafe_radio = true) (hw : s.flags.was_armed = true)
    (hi : s.flags.initialize_done = true) (hn : n.failsafe_radio = true) :
    update_triggers n s = s := by
  unfold update_triggers
  simp [hr, hw, hi, hn]

theorem update_triggers_initialize_done (n : Notify) (s : Buzzer) :
    (s.flags.initialize_done = true → (update_triggers n s).flags.initialize_done = true) ∧
    (s.flags.initialize_done = false → (update_triggers n s).flags.initialize_done = true →
      (update_triggers n s).pattern = INITIALIZE_BUZZ ∧
      (update_triggers n s).pattern_counter = 0 ∧ n.initialising = false) ∧
    ((update_triggers n s).pattern = INITIALIZE_BUZZ → s.pattern ≠ INITIALIZE_BUZZ →
      s.flags.initialize_done = false ∧ (update_triggers n s).flags.initialize_done = true) := by
  unfold update_triggers
  simp only [play_pattern]
  (repeat' split) <;> simp_all

theorem update_triggers_sets_initialize_done_iff (n : Notify) (s : Buzzer)
    (h : s.flags.initialize_done = false) :
    (update_triggers n s).flags.initialize_done = true ↔
      n.initialising = false ∧ s.flags.failsafe_radio = n.failsafe_radio := by
  unfold update_triggers
  simp only [play_pattern]
  (repeat' split) <;> simp_all

/-! ### The latches -/

theorem update_pattern_was_armed (H : Header) (n : Notify) (s : Buzzer) :
    (update_pattern H n s).1.flags.was_armed = s.flags.was_armed := by
  rw [update_pattern_flags]

theorem update_was_armed (H : Header) (n : Notify) (s : Buzzer)
    (h : s.flags.was_armed = true) : (update H n s).flags.was_armed = true := by
  rcases update_cases H n s with ⟨_, he⟩ | ⟨_, _, he⟩ | ⟨_, _, he⟩
  · rw [he]
    simpa [update_event_flags] using h
  · rw [he, update_pattern_was_armed]
    simpa [update_event_flags] using h
  · rw [he]
    apply update_triggers_was_armed
    rw [update_pattern_was_armed]
    simpa [update_event_flags] using h

theorem update_initialize_done (H : Header) (n : Notify) (s : Buzzer) :
    (s.flags.initialize_done = true → (update H n s).flags.initialize_done = true) ∧
    (s.flags.initialize_done = false → (update H n s).flags.initialize_done = true →
      (update H n s).pattern = INITIALIZE_BUZZ ∧ (update H n s).pattern_counter = 0 ∧
      n.initialising = false ∧ isTick H s) ∧
    ((update H n s).pattern = INITIALIZE_BUZZ → s.pattern ≠ INITIALIZE_BUZZ →
      s.flags.initialize_done = false ∧ (update H n s).flags.initialize_done = true) := by
  have hf := update_pattern_flags H n { update_event n s with counter := 0 }
  have hpp := update_pattern_pattern H n { update_event n s with counter := 0 }
  have hi : (update_pattern H n { update_event n s with counter := 0 }).1.flags.initialize_done
      = s.flags.initialize_done := by rw [hf]; simp [update_event_flags]
  have hpat : ∀ p, p = s.pattern ∨ p = SINGLE_BUZZ ∨ p = NONE → s.pattern ≠ INITIALIZE_BUZZ →
      p ≠ INITIALIZE_BUZZ := by
    intro p hp hs
    rcases hp with h | h | h <;> simp [h, hs]
  have hp1 : (update_pattern H n { update_event n s with counter := 0 }).1.pattern = s.pattern ∨
      (update_pattern H n { update_event n s with counter := 0 }).1.pattern = SINGLE_BUZZ ∨
      (update_pattern H n { update_event n s with counter := 0 }).1.pattern = NONE := by
    rcases hpp with h | h
    · rcases update_event_pattern n s with h' | h'
      · left; rw [h]; exact h'
      · right; left; rw [h]; exact h'
    · right; right; exact h
  have htr := update_triggers_initialize_done n
    (update_pattern H n { update_event n s with counter := 0 }).1
  rw [hi] at htr
  rcases update_cases H n s with ⟨ht, he⟩ | ⟨ht, h2, he⟩ | ⟨ht, h2, he⟩
  · rw [he]
    refine ⟨fun h => by simpa [update_event_flags] using h, fun h h' => ?_, fun h h' => ?_⟩
    · simp [update_event_flags, h] at h'
    · exact absurd h (hpat _ (by
        rcases update_event_pattern n s with h'' | h''
        · left; exact h''
        · right; left; exact h'') h')
  · rw [he]
    refine ⟨fun h => by rw [hi]; exact h, fun h h' => ?_, fun h h' => ?_⟩
    · rw [hi, h] at h'; simp at h'
    · exact absurd h (hpat _ hp1 h')
  · rw [he]
    refine ⟨htr.1, fun h h' => ?_, fun h h' => ?_⟩
    · obtain ⟨a, b, c⟩ := htr.2.1 h h'
      exact ⟨a, b, c, ht⟩
    · exact htr.2.2 h (hpat _ hp1 h')

/-- The "initialize done" latch is set by a call exactly when the call reaches
the check of line 243 and finds `initialising` clear. -/
theorem update_sets_initialize_done_iff (H : Header) (n : Notify) (s : Buzzer)
    (h : s.flags.initialize_done = false) :
    (update H n s).flags.initialize_done = true ↔
      isTick H s ∧ n.arming_failed = false ∧
      ¬ (s.pattern = SINGLE_BUZZ ∨ s.pattern = DOUBLE_BUZZ ∨ s.pattern = ARMING_BUZZ ∨
        s.pattern = BARO_GLITCH ∨ s.pattern = EKF_BAD) ∧
      n.initialising = false ∧ s.flags.failsafe_radio = n.failsafe_radio := by
  have hf := update_pattern_flags H n { update_event n s with counter := 0 }
  have hsnd := update_pattern_snd H n { update_event n s with counter := 0 }
  rcases update_cases H n s with ⟨ht, he⟩ | ⟨ht, h2, he⟩ | ⟨ht, h2, he⟩
  · rw [he]
    simp [update_event_flags, h, ht]
  · rw [he, hf]
    simp only [update_event_flags, h]
    have hr := hsnd.1 h2
    constructor
    · intro hc; simp at hc
    · rintro ⟨_, haf, hnr, _⟩
      exfalso
      apply hnr
      simpa [update_event, haf] using hr
  · rw [he, update_triggers_sets_initialize_done_iff n _ (by rw [hf]; simp [update_event_flags, h]),
      hf]
    simp only [update_event_flags]
    have hr : ¬ (_ ∨ _) := fun hc => by
      have := hsnd.2 hc
      rw [h2] at this
      simp at this
    have haf : n.arming_failed = false := by
      by_contra hc
      simp only [Bool.not_eq_false] at hc
      apply hr
      simp [update_event, hc, play_pattern]
    constructor
    · rintro ⟨a, b⟩
      refine ⟨ht, haf, ?_, a, b⟩
      simpa [update_event, haf] using hr
    · rintro ⟨_, _, _, a, b⟩
      exact ⟨a, b⟩

theorem initFirings_eq_zero (H : Header) (l : List Notify) :
    ∀ s : Buzzer, s.flags.initialize_done = true → initFirings H s l = 0 := by
  induction l with
  | nil => intro s _; rfl
  | cons n l ih =>
    intro s h
    simp [initFirings, h, ih _ ((update_initialize_done H n s).1 h)]

theorem initFirings_le_one (H : Header) (l : List Notify) :
    ∀ s : Buzzer, initFirings H s l ≤ 1 := by
  induction l with
  | nil => intro s; simp [initFirings]
  | cons n l ih =>
    intro s
    rw [initFirings]
    split
    · next h => rw [initFirings_eq_zero H l _ h.2]
    · have := ih (update H n s); omega

theorem run_initialize_done (H : Header) (l : List Notify) :
    ∀ s : Buzzer, s.flags.initialize_done = true → (run H s l).flags.initialize_done = true := by
  induction l with
  | nil => intro s h; exact h
  | cons n l ih => intro s h; exact ih _ ((update_initialize_done H n s).1 h)

/-! ### The radio-lost pattern -/

theorem radiolost_step (H : Header) (n : Notify) (s : Buzzer)
    (hp : s.pattern = RADIOLOST_BUZZ) (hw : s.flags.was_armed = true) :
    (update_pattern H n s).2 = false ∧
    (update_pattern H n s).1.pattern = RADIOLOST_BUZZ ∧
    (10 ≤ (s.pattern_counter + 1) % H.patternCounterMod →
      (update_pattern H n s).1.flags.on_ = false) ∧
    (update_pattern H n s).1.pattern_counter =
      if 20 ≤ (s.pattern_counter + 1) % H.patternCounterMod then 0
      else (s.pattern_counter + 1) % H.patternCounterMod := by
  simp only [update_pattern, hp]
  simp [on__flags, hw]
  (repeat' split) <;> simp_all
  omega

/-! ### The claims -/

/-- C1, counterexample: on a decimated tick of an idle buzzer on which no
higher-priority trigger fires, with `vehicle_lost` and `failsafe_battery` both
set, the pattern after the call is `SINGLE_BUZZ`, not `DOUBLE_BUZZ`. -/
theorem C1_counterexample :
    idle4.pattern = NONE ∧ isTick Header.std idle4 ∧
    ({ quiet with vehicle_lost := true, failsafe_battery := true } : Notify).arming_failed = false ∧
    (update Header.std { quiet with vehicle_lost := true, failsafe_battery := true } idle4).pattern
      = SINGLE_BUZZ ∧
    (update Header.std { quiet with vehicle_lost := true, failsafe_battery := true } idle4).pattern
      ≠ DOUBLE_BUZZ := by
  decide

/-- C1 (amended): on a decimated tick of a buzzer with no active pattern, without
an arming-failed event, on which neither the radio-failsafe check, nor the
initialisation check, nor the suppression rule, nor the armed check, nor the EKF
check applies, and with `vehicle_lost` set: both remaining checks run.  If
`failsafe_battery` is set too, the battery check replaces the `DOUBLE_BUZZ` just
started and the pattern after the call is `SINGLE_BUZZ` at step 0; if
`failsafe_battery` is clear the pattern after the call is `DOUBLE_BUZZ` at
step 0. -/
theorem C1_vehicle_lost_then_battery (H : Header) (n : Notify) (s : Buzzer)
    (hp : s.pattern = NONE) (ht : isTick H s) (haf : n.arming_failed = false)
    (hr : n.failsafe_radio = s.flags.failsafe_radio)
    (hi : s.flags.initialize_done = true)
    (hs : ¬ (s.flags.failsafe_radio = true ∧ s.flags.was_armed = true))
    (ha : n.armed = s.flags.armed) (he : n.ekf_bad = s.flags.ekf_bad)
    (hv : n.vehicle_lost = true) :
    (n.failsafe_battery = true →
      (update H n s).pattern = SINGLE_BUZZ ∧ (update H n s).pattern_counter = 0) ∧
    (n.failsafe_battery = false →
      (update H n s).pattern = DOUBLE_BUZZ ∧ (update H n s).pattern_counter = 0) := by
  unfold isTick at ht
  simp [update, update_pattern, update_triggers, play_pattern, haf, ht, hp, hr, hi, ha, he, hv]
  constructor
  · intro hb
    simp [hb]
    split <;> simp_all
  · intro hb
    simp [hb]
    split <;> simp_all

/-- C1, witness: the amended statement applied to the idle buzzer with
`vehicle_lost` and `failsafe_battery` both set. -/
theorem C1_witness :
    (update Header.std { quiet with vehicle_lost := true, failsafe_battery := true } idle4).pattern
      = SINGLE_BUZZ ∧
    (update Header.std { quiet with vehicle_lost := true, failsafe_battery := true }
      idle4).pattern_counter = 0 :=
  (C1_vehicle_lost_then_battery Header.std
    { quiet with vehicle_lost := true, failsafe_battery := true } idle4
    (by decide) (by decide) (by decide) (by decide) (by decide) (by decide) (by decide)
    (by decide) (by decide)).1 (by decide)

/-- C2, counterexample: a decimated tick without an arming-failed event on
`INITIALIZE_BUZZ` at step 0, and one on `RADIOBACK_BUZZ` at step 0, with the
`armed` input set and the `armed` latch clear, each end with `ARMING_BUZZ` at
step 0: a trigger started a different pattern on the tick that stepped the
active one. -/
theorem C2_counterexample :
    ({ idle4 with pattern := INITIALIZE_BUZZ } : Buzzer).pattern ≠ NONE ∧
    ({ idle4 with pattern := INITIALIZE_BUZZ } : Buzzer).pattern ≠ RADIOLOST_BUZZ ∧
    ({ idle4 with pattern := RADIOBACK_BUZZ } : Buzzer).pattern ≠ NONE ∧
    ({ idle4 with pattern := RADIOBACK_BUZZ } : Buzzer).pattern ≠ RADIOLOST_BUZZ ∧
    ({ quiet with armed := true } : Notify).arming_failed = false ∧
    isTick Header.std { idle4 with pattern := INITIALIZE_BUZZ } ∧
    isTick Header.std { idle4 with pattern := RADIOBACK_BUZZ } ∧
    (update Header.std { quiet with armed := true }
      { idle4 with pattern := INITIALIZE_BUZZ }).pattern = ARMING_BUZZ ∧
    (update Header.std { quiet with armed := true }
      { idle4 with pattern := INITIALIZE_BUZZ }).pattern_counter = 0 ∧
    (update Header.std { quiet with armed := true }
      { idle4 with pattern := RADIOBACK_BUZZ }).pattern = ARMING_BUZZ ∧
    (update Header.std { quiet with armed := true }
      { idle4 with pattern := RADIOBACK_BUZZ }).pattern_counter = 0 := by
  decide

/-- C2 (amended): for every state whose active pattern is `SINGLE_BUZZ`,
`DOUBLE_BUZZ`, `ARMING_BUZZ`, `BARO_GLITCH` or `EKF_BAD` and every input
without an arming-failed event, a decimated tick only advances that pattern:
the pattern after the call is the same pattern or `NONE`, the step is the step
at entry incremented (in the arithmetic of its type), and every flag other
than the output level is as at entry, so no trigger acted. -/
theorem C2_returning_patterns_only_advance (H : Header) (n : Notify) (s : Buzzer)
    (hp : s.pattern = SINGLE_BUZZ ∨ s.pattern = DOUBLE_BUZZ ∨ s.pattern = ARMING_BUZZ ∨
      s.pattern = BARO_GLITCH ∨ s.pattern = EKF_BAD)
    (haf : n.arming_failed = false) (ht : isTick H s) :
    ((update H n s).pattern = s.pattern ∨ (update H n s).pattern = NONE) ∧
    (update H n s).pattern_counter = (s.pattern_counter + 1) % H.patternCounterMod ∧
    (update H n s).flags = { s.flags with on_ := (update H n s).flags.on_ } := by
  have hs : (update_pattern H n { s with counter := 0 }).2 = true :=
    (update_pattern_snd H n _).2 hp
  rw [update_of_tick H n s haf ht, if_pos hs]
  refine ⟨update_pattern_pattern H n _, ?_, update_pattern_flags H n _⟩
  apply update_pattern_step
  · rcases hp with h | h | h | h | h <;> simp [h]
  · rcases hp with h | h | h | h | h <;> simp [h]

/-- C2, witness: the amended statement applied to `EKF_BAD` at step 0 with the
`armed` input differing from its latch. -/
theorem C2_witness :
    ((update Header.std { quiet with armed := true } { idle4 with pattern := EKF_BAD }).pattern
        = ({ idle4 with pattern := EKF_BAD } : Buzzer).pattern ∨
      (update Header.std { quiet with armed := true } { idle4 with pattern := EKF_BAD }).pattern
        = NONE) ∧
    (update Header.std { quiet with armed := true }
      { idle4 with pattern := EKF_BAD }).pattern_counter = 1 ∧
    (update Header.std { quiet with armed := true }
      { idle4 with pattern := EKF_BAD }).flags.armed = false :=
  have h := C2_returning_patterns_only_advance Header.std { quiet with armed := true }
    { idle4 with pattern := EKF_BAD } (by decide) (by decide) (by decide)
  ⟨h.1, h.2.1, by rw [h.2.2]; rfl⟩

/-- C3, counterexample: a call that sees the arming-failed event still goes
through the decimation: from counter 0 the counter is 1 after the call, and
from counter 4 the call is a decimated tick that steps `SINGLE_BUZZ` to step 1,
drives the output high and writes to the pin. -/
theorem C3_counterexample :
    ({ quiet with arming_failed := true } : Notify).arming_failed = true ∧
    (update Header.std { quiet with arming_failed := true } { idle4 with counter := 0 }).counter
      ≠ ({ idle4 with counter := 0 } : Buzzer).counter ∧
    (update Header.std { quiet with arming_failed := true } idle4).pattern_counter = 1 ∧
    (update Header.std { quiet with arming_failed := true } idle4).counter ≠ idle4.counter ∧
    (update Header.std { quiet with arming_failed := true } idle4).flags.on_ ≠ idle4.flags.on_ ∧
    (update Header.std { quiet with arming_failed := true } idle4).hal
      = [GpioOp.write 7 HAL_BUZZER_ON] := by
  decide

/-- C3 (amended): a call of `update` that sees the arming-failed event starts
`SINGLE_BUZZ` at step 0 and then goes on through the decimation.  When the call
is not a decimated tick, the state after it is the state at entry with pattern
`SINGLE_BUZZ`, step 0 and `_counter` incremented: output level, every latched
flag and the log of hardware calls are as at entry.  When the call is a
decimated tick, `SINGLE_BUZZ` takes its first step in the same call: the state
after it is the state at entry with pattern `SINGLE_BUZZ`, step 1, `_counter` 0
and the output driven high by `on(true)`. -/
theorem C3_arming_failed_starts_single_buzz (H : Header) (n : Notify) (s : Buzzer)
    (haf : n.arming_failed = true) :
    (¬ isTick H s →
      update H n s = { s with pattern := SINGLE_BUZZ, pattern_counter := 0,
                              counter := (s.counter + 1) % H.counterMod }) ∧
    (isTick H s → 1 < H.patternCounterMod →
      update H n s = on_ true { s with pattern := SINGLE_BUZZ, pattern_counter := 1,
                                       counter := 0 }) := by
  unfold isTick
  constructor
  · intro h
    simp only [not_not] at h
    simp [update, haf, h, play_pattern]
  · intro h hM
    have h1 : 1 % H.patternCounterMod = 1 := Nat.mod_eq_of_lt hM
    simp [update, haf, h, play_pattern, update_pattern, h1]

/-- C3, witness: the amended statement applied to the idle buzzer at counters
0 and 4. -/
theorem C3_witness :
    update Header.std { quiet with arming_failed := true } { idle4 with counter := 0 }
      = { idle4 with pattern := SINGLE_BUZZ, pattern_counter := 0, counter := 1 } ∧
    update Header.std { quiet with arming_failed := true } idle4
      = on_ true { idle4 with pattern := SINGLE_BUZZ, pattern_counter := 1, counter := 0 } :=
  ⟨(C3_arming_failed_starts_single_buzz Header.std { quiet with arming_failed := true }
      { idle4 with counter := 0 } rfl).1 (by decide),
   (C3_arming_failed_starts_single_buzz Header.std { quiet with arming_failed := true }
      idle4 rfl).2 (by decide) (by decide)⟩

/-- C4: from `SINGLE_BUZZ` at step 0, along calls of `update` that see no
arming-failed event (all other inputs arbitrary), the first decimated tick
leaves the output high with `SINGLE_BUZZ` still active, this lasts through the
four calls that follow, and the second decimated tick leaves the output low
with no active pattern.  `pre` are the calls before the first decimated tick,
`n1` is the first decimated tick, `mid` the four calls after it and `n2` the
second decimated tick. -/
theorem C4_single_buzz_two_ticks (H : Header) (hc : 5 < H.counterMod)
    (hM : 1 < H.patternCounterMod) (s : Buzzer) (pre mid : List Notify) (n1 n2 : Notify)
    (hp : s.pattern = SINGLE_BUZZ) (hs : s.pattern_counter = 0)
    (hpre : s.counter + pre.length = 4) (hmid : mid.length = 4)
    (hafpre : ∀ n ∈ pre, n.arming_failed = false) (haf1 : n1.arming_failed = false)
    (hafmid : ∀ n ∈ mid, n.arming_failed = false) (haf2 : n2.arming_failed = false) :
    (∀ k, k ≤ 4 →
      (run H s (pre ++ [n1] ++ mid.take k)).flags.on_ = true ∧
      (run H s (pre ++ [n1] ++ mid.take k)).pattern = SINGLE_BUZZ) ∧
    (run H s (pre ++ [n1] ++ mid ++ [n2])).flags.on_ = false ∧
    (run H s (pre ++ [n1] ++ mid ++ [n2])).pattern = NONE := by
  have h1 : 1 % H.patternCounterMod = 1 := Nat.mod_eq_of_lt hM
  have h2 := two_mod_ne_one H.patternCounterMod hM
  have hA : run H s (pre ++ [n1]) =
      on_ true { s with counter := 0, pattern_counter := 1 } := by
    rw [run_to_tick H hc pre n1 s hafpre hpre,
      update_of_tick H n1 _ haf1 (isTick_of_counter_eq_four H hc _ rfl)]
    simp [update_pattern, hp, hs, h1]
  constructor
  · intro k hk
    rw [run_append, hA, run_skips H hc _ _
      (fun m hm => hafmid m (List.mem_of_mem_take hm))
      (by simp; omega)]
    simp [hp]
  · rw [List.append_assoc, run_append, hA,
      run_to_tick H hc mid n2 _ hafmid (by simp [hmid]),
      update_of_tick H n2 _ haf2 (isTick_of_counter_eq_four H hc _ rfl)]
    simp [update_pattern, hp, h2]

/-- C4, witness: `SINGLE_BUZZ` at step 0 and counter 4, with the battery
failsafe set on both decimated ticks. -/
theorem C4_witness :
    (run Header.std { idle4 with pattern := SINGLE_BUZZ }
      ([] ++ [{ quiet with failsafe_battery := true }] ++ quiet4)).flags.on_ = true ∧
    (run Header.std { idle4 with pattern := SINGLE_BUZZ }
      ([] ++ [{ quiet with failsafe_battery := true }] ++ quiet4
        ++ [{ quiet with failsafe_battery := true }])).flags.on_ = false ∧
    (run Header.std { idle4 with pattern := SINGLE_BUZZ }
      ([] ++ [{ quiet with failsafe_battery := true }] ++ quiet4
        ++ [{ quiet with failsafe_battery := true }])).pattern = NONE :=
  have h := C4_single_buzz_two_ticks Header.std (by decide) (by decide)
    { idle4 with pattern := SINGLE_BUZZ } [] quiet4 { quiet with failsafe_battery := true }
    { quiet with failsafe_battery := true } rfl rfl rfl rfl (by decide) rfl (by decide) rfl
  ⟨(h.1 4 (le_refl 4)).1, h.2⟩

/-- C6: the ever-armed latch `was_armed` is monotonic under `update`: from a
state in which it is set, it is set after one call on any input, and after the
calls on any list of inputs. -/
theorem C6_was_armed_monotonic (H : Header) (s : Buzzer) (h : s.flags.was_armed = true) :
    (∀ n : Notify, (update H n s).flags.was_armed = true) ∧
    (∀ l : List Notify, (run H s l).flags.was_armed = true) := by
  refine ⟨fun n => update_was_armed H n s h, fun l => ?_⟩
  induction l generalizing s with
  | nil => exact h
  | cons n l ih => exact ih _ (update_was_armed H n s h)

/-- C6, witness: an armed buzzer that is disarmed on a decimated tick keeps
`was_armed`. -/
theorem C6_witness :
    lost4.flags.was_armed = true ∧ (update Header.std quiet lost4).flags.was_armed = true :=
  ⟨rfl, (C6_was_armed_monotonic Header.std lost4 rfl).1 quiet⟩

/-- C7: `RADIOLOST_BUZZ` does not end by itself once the vehicle has ever been
armed.  From a state playing `RADIOLOST_BUZZ` with `was_armed` set, after a call
of `update` on any input the pattern is not `NONE`.  On a decimated tick without
an arming-failed event, when the incremented step is 10 or more the output is
low after the call, and when it is 20 or more the step is 0 after the call; and
while the radio failsafe stays latched and set (initialisation signalled) the
pattern stays `RADIOLOST_BUZZ`, with the step incremented below 20 and wrapped
to 0 at 20. -/
theorem C7_radiolost_repeats_once_armed (H : Header) (hM : 1 < H.patternCounterMod)
    (n : Notify) (s : Buzzer)
    (hp : s.pattern = RADIOLOST_BUZZ) (hw : s.flags.was_armed = true) :
    (update H n s).pattern ≠ NONE ∧
    (n.arming_failed = false → isTick H s →
      (10 ≤ (s.pattern_counter + 1) % H.patternCounterMod →
        (update H n s).flags.on_ = false) ∧
      (20 ≤ (s.pattern_counter + 1) % H.patternCounterMod →
        (update H n s).pattern_counter = 0) ∧
      (s.flags.failsafe_radio = true → n.failsafe_radio = true →
        s.flags.initialize_done = true →
        (update H n s).pattern = RADIOLOST_BUZZ ∧
        (update H n s).pattern_counter =
          if 20 ≤ (s.pattern_counter + 1) % H.patternCounterMod then 0
          else (s.pattern_counter + 1) % H.patternCounterMod)) := by
  have hstep := radiolost_step H n { s with counter := 0 } hp hw
  simp only [] at hstep
  obtain ⟨h2, hpat, hon, hpc⟩ := hstep
  have htick : n.arming_failed = false → isTick H s → update H n s =
      update_triggers n (update_pattern H n { s with counter := 0 }).1 := by
    intro haf ht
    rw [update_of_tick H n s haf ht, h2]
    simp
  constructor
  · cases haf : n.arming_failed
    · by_cases ht : isTick H s
      · rw [htick haf ht]
        exact update_triggers_pattern_ne_none n _ (by rw [hpat]; simp)
      · rw [update_of_not_tick H n s haf ht]
        simp [hp]
    · by_cases ht : isTick H s
      · rw [update_arming_failed_tick H n s haf ht hM]
        simp
      · rw [update_arming_failed_not_tick H n s haf ht]
        simp
  · intro haf ht
    rw [htick haf ht]
    refine ⟨fun h10 => ?_, fun h20 => ?_, fun hr hn hi => ?_⟩
    · rw [update_triggers_on]
      exact hon h10
    · apply update_triggers_step_zero
      rw [hpc, if_pos h20]
    · rw [update_triggers_suppressed n _ (by rw [update_pattern_flags]; exact hr)
        (by rw [update_pattern_flags]; exact hw) (by rw [update_pattern_flags]; exact hi) hn]
      exact ⟨hpat, hpc⟩

/-- C7, witness: `RADIOLOST_BUZZ` at step 19 with `was_armed` set; the decimated
tick that brings the step to 20 leaves the pattern active, the output low and
the step at 0. -/
theorem C7_witness :
    (update Header.std { quiet with failsafe_radio := true, armed := true } lost4).pattern
      ≠ NONE ∧
    (update Header.std { quiet with failsafe_radio := true, armed := true } lost4).flags.on_
      = false ∧
    (update Header.std { quiet with failsafe_radio := true, armed := true }
      lost4).pattern_counter = 0 :=
  have h := C7_radiolost_repeats_once_armed Header.std (by decide)
    { quiet with failsafe_radio := true, armed := true } lost4 rfl rfl
  ⟨h.1, (h.2 rfl (by decide)).1 (by decide), (h.2 rfl (by decide)).2.1 (by decide)⟩

/-- C8: radio-failsafe suppression.  From a state whose radio-failsafe latch,
`was_armed` and "initialize done" latch are set and whose pattern is `NONE` or
`RADIOLOST_BUZZ`, a call of `update` on an input with `failsafe_radio` still
set and no arming-failed event (every other input arbitrary) leaves the pattern
as at entry and changes no flag other than the output level: the `armed` and
`ekf_bad` latches are as at entry. -/
theorem C8_radio_failsafe_suppression (H : Header) (n : Notify) (s : Buzzer)
    (hr : s.flags.failsafe_radio = true) (hw : s.flags.was_armed = true)
    (hi : s.flags.initialize_done = true)
    (hp : s.pattern = NONE ∨ s.pattern = RADIOLOST_BUZZ)
    (hn : n.failsafe_radio = true) (haf : n.arming_failed = false) :
    (update H n s).pattern = s.pattern ∧
    (update H n s).flags.armed = s.flags.armed ∧
    (update H n s).flags.ekf_bad = s.flags.ekf_bad ∧
    (update H n s).flags = { s.flags with on_ := (update H n s).flags.on_ } := by
  by_cases ht : isTick H s
  · have h2 : (update_pattern H n { s with counter := 0 }).2 = false := by
      rcases hp with hp | hp
      · simp [update_pattern, hp]
      · exact (radiolost_step H n { s with counter := 0 } hp hw).1
    have hpat : (update_pattern H n { s with counter := 0 }).1.pattern = s.pattern := by
      rcases hp with hp | hp
      · simp [update_pattern, hp]
      · rw [(radiolost_step H n { s with counter := 0 } hp hw).2.1, hp]
    have hf := update_pattern_flags H n { s with counter := 0 }
    rw [update_of_tick H n s haf ht, h2]
    simp only [Bool.false_eq_true, if_false]
    rw [update_triggers_suppressed n _ (by rw [hf]; exact hr) (by rw [hf]; exact hw)
      (by rw [hf]; exact hi) hn]
    refine ⟨hpat, ?_, ?_, hf⟩
    · rw [hf]
    · rw [hf]
  · rw [update_of_not_tick H n s haf ht]
    simp

/-- C8, witness: during a latched radio failsafe, a decimated tick on which the
vehicle is disarmed, the EKF goes bad, the vehicle is lost and the battery
failsafe is set starts nothing and leaves the `armed` and `ekf_bad` latches. -/
theorem C8_witness :
    (update Header.std radio_lost_all_set lost4).pattern = RADIOLOST_BUZZ ∧
    (update Header.std radio_lost_all_set lost4).flags.armed = true ∧
    (update Header.std radio_lost_all_set lost4).flags.ekf_bad = false :=
  have h := C8_radio_failsafe_suppression Header.std
    radio_lost_all_set lost4 rfl rfl rfl (Or.inr rfl) rfl rfl
  ⟨h.1, h.2.1, h.2.2.1⟩

/-- C9: `INITIALIZE_BUZZ` is started at most once.  (1) The "initialize done"
latch is monotonic under `update`.  (2) A call sets the latch exactly when it
reaches the initialisation check and the check applies: the call is a decimated
tick without an arming-failed event, the pattern stepped is not one whose case
returns, the radio-failsafe check does not apply and `initialising` is clear;
and then the pattern after the call is `INITIALIZE_BUZZ` at step 0.  (3) A call
after which the pattern is `INITIALIZE_BUZZ`, the pattern at entry being
another, found the latch clear and set it.  (4) From a state in which the latch
is set, the pattern after a call is `INITIALIZE_BUZZ` only if it was at entry.
(5) Along the calls on any list of inputs the latch is set at most once, and
(6) from a state in which it is set, it is never set again, it stays set, and
no later call starts `INITIALIZE_BUZZ`. -/
theorem C9_initialize_buzz_at_most_once (H : Header) :
    (∀ (n : Notify) (s : Buzzer), s.flags.initialize_done = true →
      (update H n s).flags.initialize_done = true) ∧
    (∀ (n : Notify) (s : Buzzer), s.flags.initialize_done = false →
      ((update H n s).flags.initialize_done = true ↔
        isTick H s ∧ n.arming_failed = false ∧
        ¬ (s.pattern = SINGLE_BUZZ ∨ s.pattern = DOUBLE_BUZZ ∨ s.pattern = ARMING_BUZZ ∨
          s.pattern = BARO_GLITCH ∨ s.pattern = EKF_BAD) ∧
        n.initialising = false ∧ s.flags.failsafe_radio = n.failsafe_radio) ∧
      ((update H n s).flags.initialize_done = true →
        (update H n s).pattern = INITIALIZE_BUZZ ∧ (update H n s).pattern_counter = 0)) ∧
    (∀ (n : Notify) (s : Buzzer), (update H n s).pattern = INITIALIZE_BUZZ →
      s.pattern ≠ INITIALIZE_BUZZ →
      s.flags.initialize_done = false ∧ (update H n s).flags.initialize_done = true) ∧
    (∀ (n : Notify) (s : Buzzer), s.flags.initialize_done = true →
      (update H n s).pattern = INITIALIZE_BUZZ → s.pattern = INITIALIZE_BUZZ) ∧
    (∀ (s : Buzzer) (l : List Notify), initFirings H s l ≤ 1) ∧
    (∀ (s : Buzzer) (l : List Notify) (n : Notify), s.flags.initialize_done = true →
      initFirings H s l = 0 ∧ (run H s l).flags.initialize_done = true ∧
      ((update H n (run H s l)).pattern = INITIALIZE_BUZZ →
        (run H s l).pattern = INITIALIZE_BUZZ)) := by
  have key : ∀ (n : Notify) (s : Buzzer), s.flags.initialize_done = true →
      (update H n s).pattern = INITIALIZE_BUZZ → s.pattern = INITIALIZE_BUZZ := by
    intro n s h hp
    by_contra hne
    have := ((update_initialize_done H n s).2.2 hp hne).1
    rw [h] at this
    simp at this
  refine ⟨fun n s => (update_initialize_done H n s).1,
    fun n s h => ⟨update_sets_initialize_done_iff H n s h, fun h' => ?_⟩,
    fun n s => (update_initialize_done H n s).2.2, key,
    fun s l => initFirings_le_one H l s, fun s l n h => ?_⟩
  · obtain ⟨a, b, _, _⟩ := (update_initialize_done H n s).2.1 h h'
    exact ⟨a, b⟩
  · exact ⟨initFirings_eq_zero H l s h, run_initialize_done H l s h,
      key n _ (run_initialize_done H l s h)⟩

/-- C9, witness: on a decimated tick of an idle buzzer whose latch is clear, with
`initialising` clear, the latch is set and `INITIALIZE_BUZZ` starts at step 0;
one tick later, `INITIALIZE_BUZZ` is stepped and not started again. -/
theorem C9_witness :
    (update Header.std quiet boot4).flags.initialize_done = true ∧
    (update Header.std quiet boot4).pattern = INITIALIZE_BUZZ ∧
    (update Header.std quiet boot4).pattern_counter = 0 ∧
    initFirings Header.std boot4 (quiet :: quiet4 ++ [quiet]) ≤ 1 :=
  have h := C9_initialize_buzz_at_most_once Header.std
  have h1 : (update Header.std quiet boot4).flags.initialize_done = true :=
    ((h.2.1 quiet boot4 rfl).1).2 (by decide)
  ⟨h1, ((h.2.1 quiet boot4 rfl).2 h1).1, ((h.2.1 quiet boot4 rfl).2 h1).2,
    h.2.2.2.2.1 boot4 (quiet :: quiet4 ++ [quiet])⟩

/-- C10: `on(level)` is an idempotent output driver.  If `level` is the current
output level the call leaves the state, and with it the log of hardware calls,
unchanged; otherwise it sets the output level to `level` and appends exactly one
write of that level on the buzzer pin, and changes nothing else.  Two
consecutive calls `on(true)` from an output-low state issue one write in total,
and the second of two calls `on(l); on(l)` changes nothing. -/
theorem C10_on_idempotent (s : Buzzer) (level : Bool) :
    (s.flags.on_ = level → on_ level s = s) ∧
    (s.flags.on_ ≠ level →
      on_ level s = { s with
        flags := { s.flags with on_ := level }
        hal := s.hal ++ [GpioOp.write s.pin (if level then HAL_BUZZER_ON else HAL_BUZZER_OFF)] }) ∧
    (s.flags.on_ = false →
      (on_ true (on_ true s)).hal = s.hal ++ [GpioOp.write s.pin HAL_BUZZER_ON]) ∧
    on_ level (on_ level s) = on_ level s := by
  refine ⟨fun h => ?_, fun h => ?_, fun h => ?_, ?_⟩
  · simp [on_, h]
  · simp [on_, h]
  · simp [on_, h]
  · unfold on_
    split <;> simp_all

/-- C10, witness: two calls `on(true)` on the idle, silent buzzer on pin 7 leave
one write of `HAL_BUZZER_ON` in the log. -/
theorem C10_witness :
    idle4.flags.on_ = false ∧
    (on_ true (on_ true idle4)).hal = [GpioOp.write 7 HAL_BUZZER_ON] ∧
    on_ true (on_ true idle4) = on_ true idle4 :=
  ⟨rfl, (C10_on_idempotent idle4 true).2.2.1 rfl, (C10_on_idempotent idle4 true).2.2.2⟩

/-! ### Further facts about one call -/

theorem update_pattern_write (H : Header) (n : Notify) (s : Buzzer) :
    AtMostOneWrite s (update_pattern H n s).1 ∧ (update_pattern H n s).1.pin = s.pin ∧
    (update_pattern H n s).1.counter = s.counter := by
  obtain ⟨⟨o, a, fb, fr, wa, idn, ekf⟩, c, p, pc, st, pin, hal⟩ := s
  unfold AtMostOneWrite
  cases p <;> cases o <;> simp [update_pattern, on_] <;> (repeat' split) <;> simp_all

theorem update_triggers_frame (n : Notify) (s : Buzzer) :
    (update_triggers n s).hal = s.hal ∧ (update_triggers n s).pin = s.pin ∧
    (update_triggers n s).counter = s.counter ∧
    (update_triggers n s).flags.on_ = s.flags.on_ := by
  unfold update_triggers
  simp only [play_pattern]
  (repeat' split) <;> simp

theorem update_event_frame (n : Notify) (s : Buzzer) :
    (update_event n s).hal = s.hal ∧ (update_event n s).pin = s.pin ∧
    (update_event n s).counter = s.counter := by
  unfold update_event play_pattern
  split <;> simp

theorem update_counter (H : Header) (n : Notify) (s : Buzzer) :
    (update H n s).counter =
      if (s.counter + 1) % H.counterMod < 5 then (s.counter + 1) % H.counterMod else 0 := by
  rcases update_cases H n s with ⟨ht, he⟩ | ⟨ht, _, he⟩ | ⟨ht, _, he⟩
  · unfold isTick at ht
    simp only [not_not] at ht
    rw [he, if_pos ht]
  · unfold isTick at ht
    rw [he, if_neg ht, (update_pattern_write H n _).2.2]
  · unfold isTick at ht
    rw [he, if_neg ht, (update_triggers_frame n _).2.2.1, (update_pattern_write H n _).2.2]

theorem update_write (H : Header) (n : Notify) (s : Buzzer) :
    AtMostOneWrite s (update H n s) ∧ (update H n s).pin = s.pin := by
  have hw := update_pattern_write H n { update_event n s with counter := 0 }
  have hef := update_event_flags n s
  obtain ⟨heh, hep, _⟩ := update_event_frame n s
  have hw' : AtMostOneWrite s (update_pattern H n { update_event n s with counter := 0 }).1 := by
    have := hw.1
    unfold AtMostOneWrite at this ⊢
    simpa [hef, heh, hep] using this
  rcases update_cases H n s with ⟨_, he⟩ | ⟨_, _, he⟩ | ⟨_, _, he⟩
  · rw [he]
    exact ⟨Or.inl ⟨by simp [hef], by simp [heh]⟩, by simp [hep]⟩
  · rw [he]
    exact ⟨hw', by rw [hw.2.1]; simp [hep]⟩
  · rw [he]
    obtain ⟨th, tp, _, ton⟩ := update_triggers_frame n
      (update_pattern H n { update_event n s with counter := 0 }).1
    refine ⟨?_, by rw [tp, hw.2.1]; simp [hep]⟩
    unfold AtMostOneWrite at hw' ⊢
    rw [th, ton]
    exact hw'

/-! ### The claims, continued -/

/-- C11: for every state and every input, one call of `update` issues at most
one hardware write: either the output level and the log of hardware calls are
as at entry, or the level has changed and the log has grown by exactly one
write, on the buzzer pin, carrying the new level.  So the level after the call
differs from the level at entry if and only if the log has grown, and then by
that one write. -/
theorem C11_at_most_one_write (H : Header) (n : Notify) (s : Buzzer) :
    ((update H n s).flags.on_ = s.flags.on_ ∧ (update H n s).hal = s.hal) ∨
    ((update H n s).flags.on_ ≠ s.flags.on_ ∧
      (update H n s).hal = s.hal ++
        [GpioOp.write s.pin
          (if (update H n s).flags.on_ then HAL_BUZZER_ON else HAL_BUZZER_OFF)]) :=
  (update_write H n s).1

/-- C11, witness: the idle buzzer at an arming-failed decimated tick gets one
write of `HAL_BUZZER_ON`; with quiet inputs it gets none. -/
theorem C11_witness :
    (update Header.std { quiet with arming_failed := true } idle4).hal
      = idle4.hal ++ [GpioOp.write 7 HAL_BUZZER_ON] ∧
    (update Header.std quiet idle4).hal = idle4.hal :=
  ⟨(C11_at_most_one_write Header.std { quiet with arming_failed := true } idle4).elim
      (fun h => absurd h.1 (by decide)) (fun h => h.2),
   (C11_at_most_one_write Header.std quiet idle4).elim
      (fun h => h.2) (fun h => absurd rfl h.1)⟩

/-! ### `init` -/

theorem init_fails_iff (enabled : Bool) (hal_pin : Option Nat) (buzz_pin : Nat) (n0 : Notify)
    (s : Buzzer) :
    (init enabled hal_pin buzz_pin n0 s).1 = false ↔
      (enabled = false ∨ hal_pin.getD buzz_pin = 0) := by
  unfold init
  cases enabled <;> cases hal_pin <;> simp <;> split <;> simp_all

theorem init_failed_state (enabled : Bool) (hal_pin : Option Nat) (buzz_pin : Nat)
    (n0 : Notify) (s : Buzzer) (h : (init enabled hal_pin buzz_pin n0 s).1 = false) :
    (init enabled hal_pin buzz_pin n0 s).2 = s ∨
    (init enabled hal_pin buzz_pin n0 s).2 = { s with pin := 0 } := by
  unfold init at h ⊢
  cases enabled <;> cases hal_pin <;> simp at h ⊢ <;> split at h <;> simp_all

theorem init_succeeded_state (enabled : Bool) (hal_pin : Option Nat) (buzz_pin : Nat)
    (n0 : Notify) (s : Buzzer) (h : (init enabled hal_pin buzz_pin n0 s).1 = true) :
    (init enabled hal_pin buzz_pin n0 s).2 =
      { on_ false { s with pin := hal_pin.getD buzz_pin,
                           hal := s.hal ++ [GpioOp.pinMode (hal_pin.getD buzz_pin)] } with
        flags := { on_ := false, armed := n0.armed, failsafe_battery := n0.failsafe_battery,
                   failsafe_radio := false, was_armed := false, initialize_done := false,
                   ekf_bad := s.flags.ekf_bad } } := by
  unfold init at h ⊢
  cases enabled <;> cases hal_pin <;> simp at h ⊢ <;> split at h <;> simp_all [on__flags]

/-- A call of `update` always changes `_counter`. -/
theorem update_counter_ne (H : Header) (hc : 1 < H.counterMod) (n : Notify) (s : Buzzer) :
    (update H n s).counter ≠ s.counter := by
  rw [update_counter]
  have hlt : (s.counter + 1) % H.counterMod < H.counterMod := Nat.mod_lt _ (by omega)
  rcases Nat.lt_or_ge (s.counter + 1) H.counterMod with h | h
  · rw [Nat.mod_eq_of_lt h]
    split <;> omega
  · rcases Nat.eq_or_lt_of_le h with h' | h'
    · rw [← h', Nat.mod_self]
      simp
      omega
    · split <;> omega

/-- C12, counterexample: `init` fails on a disabled buzzer and leaves the object
as it was, but the next call of `update` changes the object, and ten calls with
quiet inputs issue a hardware write. -/
theorem C12_counterexample :
    (init false none 0 quiet boot0).1 = false ∧
    (init false none 0 quiet boot0).2 = boot0 ∧
    update Header.std quiet (init false none 0 quiet boot0).2
      ≠ (init false none 0 quiet boot0).2 ∧
    (run Header.std (init false none 0 quiet boot0).2 (quiet :: quiet4 ++ quiet :: quiet4)).hal
      = [GpioOp.write 0 HAL_BUZZER_ON] := by
  decide

/-- C12 (amended): `init` returns false exactly when notification is not enabled
or the pin read is 0, and then it leaves the object as it was, except that the
pin member is 0 when pin 0 was read: no output is driven, no latch is seeded and
nothing is added to the log of hardware calls.  `update` has no check of that
outcome: a call of `update` after a failed `init` is not a no-op, it changes
`_counter` like any other call. -/
theorem C12_init_failure_does_not_disable_update (H : Header) (hc : 1 < H.counterMod)
    (enabled : Bool) (hal_pin : Option Nat) (buzz_pin : Nat) (n0 : Notify) (s : Buzzer) :
    ((init enabled hal_pin buzz_pin n0 s).1 = false ↔
      (enabled = false ∨ hal_pin.getD buzz_pin = 0)) ∧
    ((init enabled hal_pin buzz_pin n0 s).1 = false →
      ((init enabled hal_pin buzz_pin n0 s).2 = s ∨
        (init enabled hal_pin buzz_pin n0 s).2 = { s with pin := 0 }) ∧
      ∀ n : Notify,
        (update H n (init enabled hal_pin buzz_pin n0 s).2).counter
          ≠ (init enabled hal_pin buzz_pin n0 s).2.counter) :=
  ⟨init_fails_iff enabled hal_pin buzz_pin n0 s,
   fun h => ⟨init_failed_state enabled hal_pin buzz_pin n0 s h,
     fun n => update_counter_ne H hc n _⟩⟩

/-- C12, witness: `init` with notification enabled and pin 0 fails, stores pin 0,
and the next call of `update` counts. -/
theorem C12_witness :
    (init true none 0 quiet idle4).1 = false ∧
    (update Header.std quiet (init true none 0 quiet idle4).2).counter
      ≠ (init true none 0 quiet idle4).2.counter :=
  have h := C12_init_failure_does_not_disable_update Header.std (by decide) true none 0
    quiet idle4
  ⟨h.1.2 (Or.inr rfl), (h.2 (h.1.2 (Or.inr rfl))).2 quiet⟩

/-- C13, counterexample: `init` succeeds at a boot with the battery failsafe
already set; with the inputs unchanged, the first decimated tick after it
starts `SINGLE_BUZZ`, the battery-failsafe notification. -/
theorem C13_counterexample :
    boot0.pattern = NONE ∧ boot0.counter = 0 ∧
    (init true none 7 boot_battery boot0).1 = true ∧
    (init true none 7 boot_battery boot0).2.flags.failsafe_battery = true ∧
    boot_battery.arming_failed = false ∧
    (run Header.std (init true none 7 boot_battery boot0).2
      ([boot_battery, boot_battery, boot_battery, boot_battery] ++ [boot_battery])).pattern
      = SINGLE_BUZZ := by
  decide

/-- C13 (amended): when `init` succeeds, from an object with no active pattern
and `_counter` 0, it leaves the output low and the latches `armed` and
`failsafe_battery` equal to the status at boot.  If the `armed` input still has
its boot value at the first decimated tick after `init` (no arming-failed event
up to it), that tick starts no armed-state notification: the `armed` latch and
`was_armed` are as `init` left them, the pattern after it is not `ARMING_BUZZ`,
and it is `SINGLE_BUZZ` only if the battery failsafe is set.  The battery check
does not read the seeded latch: if `failsafe_battery` is set at that tick, also
when it was already set at boot, and no earlier check applies (`initialising`
still set, `ekf_bad` equal to its latch), the tick starts `SINGLE_BUZZ`. -/
theorem C13_boot_seeds_armed_only (H : Header) (hc : 5 < H.counterMod)
    (enabled : Bool) (hal_pin : Option Nat) (buzz_pin : Nat) (n0 : Notify) (s0 : Buzzer)
    (hinit : (init enabled hal_pin buzz_pin n0 s0).1 = true)
    (hp : s0.pattern = NONE) (hcnt : s0.counter = 0) :
    (init enabled hal_pin buzz_pin n0 s0).2.flags.on_ = false ∧
    (init enabled hal_pin buzz_pin n0 s0).2.flags.armed = n0.armed ∧
    (init enabled hal_pin buzz_pin n0 s0).2.flags.failsafe_battery = n0.failsafe_battery ∧
    (∀ (l : List Notify) (n : Notify), l.length = 4 →
      (∀ m ∈ l, m.arming_failed = false) → n.arming_failed = false → n.armed = n0.armed →
      (run H (init enabled hal_pin buzz_pin n0 s0).2 (l ++ [n])).flags.armed = n0.armed ∧
      (run H (init enabled hal_pin buzz_pin n0 s0).2 (l ++ [n])).flags.was_armed = false ∧
      (run H (init enabled hal_pin buzz_pin n0 s0).2 (l ++ [n])).pattern ≠ ARMING_BUZZ ∧
      ((run H (init enabled hal_pin buzz_pin n0 s0).2 (l ++ [n])).pattern = SINGLE_BUZZ →
        n.failsafe_battery = true) ∧
      (n.failsafe_battery = true → n.initialising = true → n.ekf_bad = s0.flags.ekf_bad →
        (run H (init enabled hal_pin buzz_pin n0 s0).2 (l ++ [n])).pattern = SINGLE_BUZZ ∧
        (run H (init enabled hal_pin buzz_pin n0 s0).2 (l ++ [n])).pattern_counter = 0)) := by
  have hs := init_succeeded_state enabled hal_pin buzz_pin n0 s0 hinit
  refine ⟨by rw [hs], by rw [hs], by rw [hs], ?_⟩
  intro l n hl hafl haf harm
  have hc1 : (init enabled hal_pin buzz_pin n0 s0).2.counter = 0 := by rw [hs]; simp [hcnt]
  rw [run_to_tick H hc l n _ hafl (by rw [hc1, hl]),
    update_of_tick H n _ haf (isTick_of_counter_eq_four H hc _ rfl), hs]
  simp only [update_pattern, on__pattern, hp]
  simp only [update_triggers, play_pattern, harm]
  simp
  (repeat' split) <;> simp_all

/-- C13, witness: the amended statement at a boot with the battery failsafe set
and unchanged inputs. -/
theorem C13_witness :
    (run Header.std (init true none 7 boot_battery boot0).2
      ([boot_battery, boot_battery, boot_battery, boot_battery] ++ [boot_battery])).flags.armed
      = false ∧
    (run Header.std (init true none 7 boot_battery boot0).2
      ([boot_battery, boot_battery, boot_battery, boot_battery] ++ [boot_battery])).pattern
      = SINGLE_BUZZ :=
  have h := (C13_boot_seeds_armed_only Header.std (by decide) true none 7 boot_battery boot0
    (by decide) rfl rfl).2.2.2 [boot_battery, boot_battery, boot_battery, boot_battery]
    boot_battery rfl (by decide) rfl rfl
  ⟨h.1, (h.2.2.2.2 rfl rfl rfl).1⟩

/-- C14: the armed check.  On a decimated tick of a buzzer with no active
pattern, without an arming-failed event, on which neither the radio-failsafe
check nor the initialisation check applies and the suppression rule is not
active, and the `armed` input differs from its latch: if the input is set, the
state after the call is the state at entry with `_counter` 0, the `armed` latch
and `was_armed` set and `ARMING_BUZZ` at step 0; if it is clear, it is the
state at entry with `_counter` 0, the `armed` latch clear and `SINGLE_BUZZ` at
step 0.  Everything else, among it the output level, `was_armed` in the second
case, the `ekf_bad` latch and the log of hardware calls, is as at entry. -/
theorem C14_armed_trigger (H : Header) (n : Notify) (s : Buzzer)
    (hp : s.pattern = NONE) (ht : isTick H s) (haf : n.arming_failed = false)
    (hr : ¬ (s.flags.failsafe_radio ≠ n.failsafe_radio ∧ n.initialising = false))
    (hi : ¬ (s.flags.initialize_done = false ∧ n.initialising = false))
    (hs : ¬ (s.flags.failsafe_radio = true ∧ s.flags.was_armed = true))
    (ha : s.flags.armed ≠ n.armed) :
    (n.armed = true →
      update H n s = { s with counter := 0, pattern := ARMING_BUZZ, pattern_counter := 0,
                              flags := { s.flags with armed := true, was_armed := true } }) ∧
    (n.armed = false →
      update H n s = { s with counter := 0, pattern := SINGLE_BUZZ, pattern_counter := 0,
                              flags := { s.flags with armed := false } }) := by
  have e : update H n s = update_triggers n { s with counter := 0 } := by
    rw [update_of_tick H n s haf ht]
    simp [update_pattern, hp]
  rw [e]
  unfold update_triggers
  simp only []
  rw [if_neg hr, if_neg hi, if_neg hs, if_pos ha]
  constructor <;> intro h <;> simp [play_pattern, h]

/-- C14, witness: the idle buzzer is armed on a decimated tick on which the EKF
goes bad, the vehicle is lost and the battery failsafe is set as well. -/
theorem C14_witness :
    update Header.std
      { radio_lost_all_set with armed := true, failsafe_radio := false } idle4
      = { idle4 with counter := 0, pattern := ARMING_BUZZ, pattern_counter := 0,
                     flags := { idle4.flags with armed := true, was_armed := true } } :=
  (C14_armed_trigger Header.std { radio_lost_all_set with armed := true, failsafe_radio := false }
    idle4 rfl (by decide) rfl (by decide) (by decide) (by decide) (by decide)).1 rfl

/-! ### Idle implies silent, decimation, the held arming-failed event -/

theorem update_pattern_none_low (H : Header) (n : Notify) (s : Buzzer)
    (h : (update_pattern H n s).1.pattern = NONE) (hs : s.pattern ≠ NONE) :
    (update_pattern H n s).1.flags.on_ = false := by
  obtain ⟨f, c, p, pc, st, pin, hal⟩ := s
  cases p <;> simp [update_pattern] at h hs ⊢ <;> (repeat' split) <;> simp_all

theorem update_pattern_of_none (H : Header) (n : Notify) (s : Buzzer) (hs : s.pattern = NONE) :
    (update_pattern H n s).1 = s := by
  simp [update_pattern, hs]

/-- After a call, no active pattern and the output high can only be what the
call found: a call never ends a pattern with the output high. -/
theorem update_none_low (H : Header) (n : Notify) (s : Buzzer)
    (h : (update H n s).pattern = NONE) :
    (update H n s).flags.on_ = false ∨
      (s.pattern = NONE ∧ (update H n s).flags.on_ = s.flags.on_) := by
  have hep := update_event_pattern n s
  rcases update_cases H n s with ⟨_, he⟩ | ⟨_, h2, he⟩ | ⟨_, _, he⟩
  · rw [he] at h ⊢
    right
    simp only [] at h
    rcases hep with h' | h'
    · exact ⟨by rw [← h']; exact h, by simp [update_event_flags]⟩
    · rw [h'] at h; simp at h
  · rw [he] at h ⊢
    left
    apply update_pattern_none_low H n _ h
    intro hc
    have := (update_pattern_snd H n _).1 h2
    simp only [] at hc this
    rw [hc] at this
    simp at this
  · rw [he] at h ⊢
    have hn : (update_pattern H n { update_event n s with counter := 0 }).1.pattern = NONE := by
      by_contra hc
      exact update_triggers_pattern_ne_none n _ hc h
    rw [(update_triggers_frame n _).2.2.2]
    by_cases hs : ({ update_event n s with counter := 0 } : Buzzer).pattern = NONE
    · right
      rw [update_pattern_of_none H n _ hs]
      simp only [] at hs
      rcases hep with h' | h'
      · exact ⟨by rw [← h']; exact hs, by simp [update_event_flags]⟩
      · rw [h'] at hs; simp at hs
    · left
      exact update_pattern_none_low H n _ hn hs

/-- C18: "no active pattern implies output low" is an invariant of `update`.  It
holds after a successful `init`, which leaves the output low; a call of
`update` on any input takes a state that satisfies it to a state that
satisfies it, and so do the calls on any list of inputs; and whenever a call
takes the pattern from an active one to `NONE`, the output is low after the
call. -/
theorem C18_idle_implies_silent (H : Header) :
    (∀ (enabled : Bool) (hal_pin : Option Nat) (buzz_pin : Nat) (n0 : Notify) (s : Buzzer),
      (init enabled hal_pin buzz_pin n0 s).1 = true →
      (init enabled hal_pin buzz_pin n0 s).2.flags.on_ = false) ∧
    (∀ (n : Notify) (s : Buzzer), (s.pattern = NONE → s.flags.on_ = false) →
      ((update H n s).pattern = NONE → (update H n s).flags.on_ = false)) ∧
    (∀ (l : List Notify) (s : Buzzer), (s.pattern = NONE → s.flags.on_ = false) →
      ((run H s l).pattern = NONE → (run H s l).flags.on_ = false)) ∧
    (∀ (n : Notify) (s : Buzzer), s.pattern ≠ NONE → (update H n s).pattern = NONE →
      (update H n s).flags.on_ = false) := by
  have step : ∀ (n : Notify) (s : Buzzer), (s.pattern = NONE → s.flags.on_ = false) →
      ((update H n s).pattern = NONE → (update H n s).flags.on_ = false) := by
    intro n s hinv h
    rcases update_none_low H n s h with h' | ⟨h1, h2⟩
    · exact h'
    · rw [h2]; exact hinv h1
  refine ⟨fun e hp bp n0 s h => ?_, step, fun l => ?_, fun n s hs h => ?_⟩
  · rw [init_succeeded_state e hp bp n0 s h]
  · induction l with
    | nil => intro s hinv; exact hinv
    | cons n l ih => intro s hinv; exact ih _ (step n s hinv)
  · rcases update_none_low H n s h with h' | ⟨h1, _⟩
    · exact h'
    · exact absurd h1 hs

/-- C18, witness: the second decimated tick of `SINGLE_BUZZ` ends the pattern
and leaves the output low. -/
theorem C18_witness :
    (update Header.std quiet
      { idle4 with pattern := SINGLE_BUZZ, pattern_counter := 1,
                   flags := { idle4.flags with on_ := true } }).pattern = NONE ∧
    (update Header.std quiet
      { idle4 with pattern := SINGLE_BUZZ, pattern_counter := 1,
                   flags := { idle4.flags with on_ := true } }).flags.on_ = false :=
  ⟨by decide, (C18_idle_implies_silent Header.std).2.2.2 quiet
    { idle4 with pattern := SINGLE_BUZZ, pattern_counter := 1,
                 flags := { idle4.flags with on_ := true } } (by decide) (by decide)⟩

theorem update_counter_le (H : Header) (n : Notify) (s : Buzzer) : (update H n s).counter ≤ 4 := by
  rw [update_counter]
  split <;> omega

theorem run_counter (H : Header) (hc : 5 < H.counterMod) (l : List Notify) :
    ∀ s : Buzzer, s.counter < 5 → (run H s l).counter = (s.counter + l.length) % 5 := by
  induction l with
  | nil => intro s h; simp [run]; omega
  | cons n l ih =>
    intro s h
    have hu : (update H n s).counter = (s.counter + 1) % 5 := by
      rw [update_counter, Nat.mod_eq_of_lt (by omega)]
      split <;> omega
    have hlt : (s.counter + 1) % 5 < 5 := Nat.mod_lt _ (by omega)
    rw [run, ih _ (by rw [hu]; exact hlt), hu]
    simp only [List.length_cons]
    omega

/-- C19: decimation.  With a counter type that can hold 5: a call of `update`
at `_counter` below 4 without an arming-failed event returns the state at
entry with `_counter` incremented, so pattern, step, output level, latches and
the log of hardware calls are as at entry; a call at `_counter` 4 is a
decimated tick and leaves `_counter` at 0; after any call `_counter` is at
most 4; and from `_counter` below 5, after the calls on any list of inputs
`_counter` is the number of calls modulo 5 ahead, so that from `_counter` 0 the
next call is a decimated tick exactly when the number of calls made so far is
4 modulo 5, that is, every fifth call. -/
theorem C19_decimation (H : Header) (hc : 5 < H.counterMod) :
    (∀ (n : Notify) (s : Buzzer), s.counter < 4 → n.arming_failed = false →
      update H n s = { s with counter := s.counter + 1 }) ∧
    (∀ (n : Notify) (s : Buzzer), s.counter = 4 →
      isTick H s ∧ (update H n s).counter = 0) ∧
    (∀ (n : Notify) (s : Buzzer), (update H n s).counter ≤ 4) ∧
    (∀ (l : List Notify) (s : Buzzer), s.counter < 5 →
      (run H s l).counter = (s.counter + l.length) % 5 ∧
      (isTick H (run H s l) ↔ (s.counter + l.length) % 5 = 4)) := by
  refine ⟨fun n s h haf => ?_, fun n s h => ?_, fun n s => update_counter_le H n s,
    fun l s h => ?_⟩
  · rw [update_of_not_tick H n s haf (not_isTick_of_counter_lt_four H hc s h),
      Nat.mod_eq_of_lt (by omega)]
  · have ht := isTick_of_counter_eq_four H hc s h
    refine ⟨ht, ?_⟩
    rw [update_counter]
    unfold isTick at ht
    rw [if_neg ht]
  · have hcnt := run_counter H hc l s h
    refine ⟨hcnt, ?_⟩
    have hlt : (s.counter + l.length) % 5 < 5 := Nat.mod_lt _ (by omega)
    unfold isTick
    rw [hcnt, Nat.mod_eq_of_lt (by omega)]
    omega

/-- C19, witness: from the idle buzzer at counter 0, one quiet call only
counts, and after four calls the next one is a decimated tick. -/
theorem C19_witness :
    update Header.std quiet { idle4 with counter := 0 } = { idle4 with counter := 1 } ∧
    isTick Header.std (run Header.std { idle4 with counter := 0 } quiet4) :=
  have h := C19_decimation Header.std (by decide)
  ⟨h.1 quiet { idle4 with counter := 0 } (by decide) rfl,
   (h.2.2.2 quiet4 { idle4 with counter := 0 } (by decide)).2.2 (by decide)⟩

/-- Calls that all see the arming-failed event, made with the output high,
leave the output high and, once one is made, `SINGLE_BUZZ` active. -/
theorem run_arming_failed_held (H : Header) (hM : 1 < H.patternCounterMod) (l : List Notify) :
    ∀ s : Buzzer, (∀ n ∈ l, n.arming_failed = true) → s.flags.on_ = true →
      s.pattern = SINGLE_BUZZ →
      (run H s l).flags.on_ = true ∧ (run H s l).pattern = SINGLE_BUZZ := by
  induction l with
  | nil => intro s _ h hp; exact ⟨h, hp⟩
  | cons n l ih =>
    intro s haf hon hp
    have hn := haf n (List.mem_cons_self n l)
    rw [run]
    apply ih _ (fun m hm => haf m (List.mem_cons_of_mem n hm))
    · by_cases ht : isTick H s
      · rw [update_arming_failed_tick H n s hn ht hM]; simp
      · rw [update_arming_failed_not_tick H n s hn ht]; exact hon
    · by_cases ht : isTick H s
      · rw [update_arming_failed_tick H n s hn ht hM]; simp
      · rw [update_arming_failed_not_tick H n s hn ht]

/-- C20: a held arming-failed event keeps the buzzer on.  A call of `update`
that sees the event and is a decimated tick (as is every call at `_counter` 4)
ends with `SINGLE_BUZZ` at step 1 and the output high.  Along calls that all
see the event, `pre` up to the first decimated tick, `n` that tick and `l` any
calls after it, the output is high and the pattern `SINGLE_BUZZ`, so not
`NONE`, after `n` and after every later call. -/
theorem C20_held_arming_failed_keeps_buzzing (H : Header) (hc : 5 < H.counterMod)
    (hM : 1 < H.patternCounterMod) :
    (∀ (n : Notify) (s : Buzzer), n.arming_failed = true → s.counter = 4 →
      isTick H s ∧ (update H n s).pattern = SINGLE_BUZZ ∧
      (update H n s).pattern_counter = 1 ∧ (update H n s).flags.on_ = true) ∧
    (∀ (pre l : List Notify) (n : Notify) (s : Buzzer),
      (∀ m ∈ pre ++ n :: l, m.arming_failed = true) → isTick H (run H s pre) →
      (run H s (pre ++ n :: l)).flags.on_ = true ∧
      (run H s (pre ++ n :: l)).pattern = SINGLE_BUZZ ∧
      (run H s (pre ++ n :: l)).pattern ≠ NONE) := by
  constructor
  · intro n s haf h4
    have ht := isTick_of_counter_eq_four H hc s h4
    rw [update_arming_failed_tick H n s haf ht hM]
    simp [ht]
  · intro pre l n s haf ht
    have hn : n.arming_failed = true := haf n (by simp)
    have h := run_arming_failed_held H hM l (update H n (run H s pre))
      (fun m hm => haf m (by simp [hm]))
      (by rw [update_arming_failed_tick H n _ hn ht hM]; simp)
      (by rw [update_arming_failed_tick H n _ hn ht hM]; simp)
    rw [run_append, run]
    exact ⟨h.1, h.2, by rw [h.2]; simp⟩

/-- C20, witness: the idle buzzer at counter 4 with the arming-failed event held
over a decimated tick and four more calls. -/
theorem C20_witness :
    (update Header.std { quiet with arming_failed := true } idle4).pattern_counter = 1 ∧
    (run Header.std idle4
      ([] ++ { quiet with arming_failed := true } ::
        [{ quiet with arming_failed := true }, { quiet with arming_failed := true },
         { quiet with arming_failed := true }, { quiet with arming_failed := true }])).flags.on_
      = true :=
  have h := C20_held_arming_failed_keeps_buzzing Header.std (by decide) (by decide)
  ⟨(h.1 { quiet with arming_failed := true } idle4 rfl rfl).2.2.1,
   (h.2 [] [{ quiet with arming_failed := true }, { quiet with arming_failed := true },
         { quiet with arming_failed := true }, { quiet with arming_failed := true }]
      { quiet with arming_failed := true } idle4 (by decide) (by decide)).1⟩

/-! ### Counting decimated ticks along a sequence of calls -/

/-- From `_counter` below 5, the calls on a list `l` of inputs contain
`(s.counter + l.length) / 5` decimated ticks.  If `P 0` holds at the start, `P k`
does not depend on `_counter`, and a decimated tick on an input satisfying `Q`
takes `P k` to `P (k + 1)` for `k < K`, then `P k` holds after `k` decimated
ticks, for `k` up to `K`. -/
theorem run_ticks (H : Header) (hc : 5 < H.counterMod) (Q : Notify → Prop)
    (P : Nat → Buzzer → Prop) (K : Nat)
    (hQ : ∀ n, Q n → n.arming_failed = false)
    (hcnt : ∀ k (s : Buzzer) c, P k s → P k { s with counter := c })
    (hstep : ∀ k n (s : Buzzer), k < K → Q n → isTick H s → P k s → P (k + 1) (update H n s))
    (s : Buzzer) (hs : s.counter < 5) (h0 : P 0 s) (l : List Notify) :
    (∀ n ∈ l, Q n) → (s.counter + l.length) / 5 ≤ K →
      P ((s.counter + l.length) / 5) (run H s l) := by
  induction l using List.reverseRecOn with
  | nil =>
    intro _ _
    have : (s.counter + ([] : List Notify).length) / 5 = 0 := by simp; omega
    rw [this]
    exact h0
  | append_singleton l a ih =>
    intro hl hK
    have ha : Q a := hl a (by simp)
    have hl' : ∀ n ∈ l, Q n := fun n hn => hl n (by simp [hn])
    simp only [List.length_append, List.length_singleton] at hK ⊢
    have hPk := ih hl' (by omega)
    have hcn := run_counter H hc l s hs
    rw [run_append]
    simp only [run]
    rcases Nat.lt_or_ge ((s.counter + l.length) % 5) 4 with h4 | h4
    · have hk : (s.counter + (l.length + 1)) / 5 = (s.counter + l.length) / 5 := by omega
      rw [hk, update_of_not_tick H a _ (hQ a ha)
        (not_isTick_of_counter_lt_four H hc _ (by rw [hcn]; exact h4))]
      exact hcnt _ _ _ hPk
    · have hk : (s.counter + (l.length + 1)) / 5 = (s.counter + l.length) / 5 + 1 := by omega
      rw [hk]
      exact hstep _ a _ (by omega) ha
        (isTick_of_counter_eq_four H hc _ (by rw [hcn]; omega)) hPk

/-- A decimated tick on a pattern whose case returns is the step of the pattern. -/
theorem update_of_tick_returning (H : Header) (n : Notify) (s : Buzzer)
    (hp : s.pattern = SINGLE_BUZZ ∨ s.pattern = DOUBLE_BUZZ ∨ s.pattern = ARMING_BUZZ ∨
      s.pattern = BARO_GLITCH ∨ s.pattern = EKF_BAD)
    (haf : n.arming_failed = false) (ht : isTick H s) :
    update H n s = (update_pattern H n { s with counter := 0 }).1 := by
  rw [update_of_tick H n s haf ht,
    if_pos ((update_pattern_snd H n { s with counter := 0 }).2 hp)]

theorem ekf_bad_tick (H : Header) (hM : 11 < H.patternCounterMod) (k : Nat) (n : Notify)
    (s : Buzzer) (hk : k < 11) (haf : n.arming_failed = false) (ht : isTick H s)
    (hp : s.pattern = EKF_BAD) (hpc : s.pattern_counter = k)
    (hon : 1 ≤ k → s.flags.on_ = EKF_BAD_levels.getD (k - 1) false) :
    (update H n s).pattern = (if k + 1 < 11 then EKF_BAD else NONE) ∧
    (update H n s).pattern_counter = k + 1 ∧
    (update H n s).flags.on_ = EKF_BAD_levels.getD k false ∧
    ((k + 1 = 2 ∨ k + 1 = 3 ∨ k + 1 = 6) → (update H n s).hal = s.hal) := by
  have hm : (k + 1) % H.patternCounterMod = k + 1 := Nat.mod_eq_of_lt (by omega)
  rw [update_of_tick_returning H n s (by simp [hp]) haf ht]
  simp only [update_pattern, hp, hpc, hm]
  interval_cases k <;> simp_all [EKF_BAD_levels]

/-- C17: the step table of `EKF_BAD`.  From `EKF_BAD` at step 0, with any
output level, along calls of `update` on any inputs without an arming-failed
event: after decimated tick `k`, for `k` from 1 to 11, and through the calls up
to the next decimated tick, the output level is entry `k` of on, on, on, off,
on, on, off, on, off, on, off, and the pattern is `EKF_BAD` for `k` up to 10 and
`NONE` for `k = 11`.  Decimated ticks 2, 3 and 6, those that find step 1, 2 or
5, leave the output level and the log of hardware calls as they were. -/
theorem C17_ekf_bad_step_table (H : Header) (hc : 5 < H.counterMod)
    (hM : 11 < H.patternCounterMod) (s : Buzzer) (hp : s.pattern = EKF_BAD)
    (hs : s.pattern_counter = 0) (hcnt : s.counter < 5) :
    (∀ (l : List Notify) (k : Nat), (∀ n ∈ l, n.arming_failed = false) →
      (s.counter + l.length) / 5 = k → 1 ≤ k → k ≤ 11 →
      EKF_BAD_levels[k - 1]? = some (run H s l).flags.on_ ∧
      (run H s l).pattern = (if k < 11 then EKF_BAD else NONE)) ∧
    (∀ (n : Notify) (t : Buzzer), t.pattern = EKF_BAD →
      (t.pattern_counter = 1 ∨ t.pattern_counter = 2 ∨ t.pattern_counter = 5) →
      n.arming_failed = false → isTick H t →
      (update H n t).flags.on_ = t.flags.on_ ∧ (update H n t).hal = t.hal) := by
  constructor
  · intro l k haf hk hk1 hk11
    have h := run_ticks H hc (fun n => n.arming_failed = false)
      (fun k t => t.pattern = (if k < 11 then EKF_BAD else NONE) ∧
        (k < 11 → t.pattern_counter = k) ∧
        (1 ≤ k → t.flags.on_ = EKF_BAD_levels.getD (k - 1) false)) 11
      (fun n hn => hn) (fun k t c h => h)
      (fun k n t hk hn ht hP => by
        have hpt : t.pattern = EKF_BAD := by rw [hP.1, if_pos hk]
        obtain ⟨a, b, c, _⟩ := ekf_bad_tick H hM k n t hk hn ht hpt (hP.2.1 hk) hP.2.2
        exact ⟨a, fun _ => b, fun _ => by simpa using c⟩)
      s hcnt ⟨by simp [hp], fun _ => hs, fun h => by omega⟩ l haf (by omega)
    rw [hk] at h
    refine ⟨?_, h.1⟩
    rw [h.2.2 hk1]
    interval_cases k <;> simp [EKF_BAD_levels]
  · intro n t hpt hst haf ht
    have hm : (t.pattern_counter + 1) % H.patternCounterMod = t.pattern_counter + 1 :=
      Nat.mod_eq_of_lt (by omega)
    rw [update_of_tick_returning H n t (by simp [hpt]) haf ht]
    simp only [update_pattern, hpt, hm]
    rcases hst with h | h | h <;> simp [h]

/-- C17, witness: `EKF_BAD` at step 0 and counter 4 with the output high; after
the first decimated tick and the four calls that follow it the output is on,
and the decimated tick that finds step 1 writes nothing. -/
theorem C17_witness :
    EKF_BAD_levels[0]? = some (run Header.std
      { idle4 with pattern := EKF_BAD, flags := { idle4.flags with on_ := true } }
      (quiet :: quiet4)).flags.on_ ∧
    (update Header.std quiet { idle4 with pattern := EKF_BAD, pattern_counter := 1 }).hal
      = idle4.hal :=
  have h := C17_ekf_bad_step_table Header.std (by decide) (by decide)
    { idle4 with pattern := EKF_BAD, flags := { idle4.flags with on_ := true } } rfl rfl
    (by decide)
  ⟨(h.1 (quiet :: quiet4) 1 (by decide) (by decide) (by decide) (by decide)).1,
   (h.2 quiet { idle4 with pattern := EKF_BAD, pattern_counter := 1 } rfl (Or.inl rfl) rfl
      (by decide)).2⟩

/-! ### The step tables of `BARO_GLITCH` and `RADIOLOST_BUZZ` -/

theorem baro_glitch_tick (H : Header) (hM : 10 < H.patternCounterMod) (k : Nat) (n : Notify)
    (s : Buzzer) (hk : k < 10) (haf : n.arming_failed = false) (ht : isTick H s)
    (hp : s.pattern = BARO_GLITCH) (hpc : s.pattern_counter = k) :
    (update H n s).pattern = (if k + 1 < 10 then BARO_GLITCH else NONE) ∧
    (update H n s).pattern_counter = k + 1 ∧
    (update H n s).flags.on_ = BARO_GLITCH_levels.getD k false := by
  have hm : (k + 1) % H.patternCounterMod = k + 1 := Nat.mod_eq_of_lt (by omega)
  rw [update_of_tick_returning H n s (by simp [hp]) haf ht]
  simp only [update_pattern, hp, hpc, hm]
  interval_cases k <;> simp_all [BARO_GLITCH_levels]

/-- With the radio-failsafe and armed and EKF latches equal to the inputs, the
initialisation signalled and neither `vehicle_lost` nor `failsafe_battery`
set, the trigger checks change nothing. -/
theorem update_triggers_quiet (n : Notify) (t : Buzzer)
    (h1 : t.flags.failsafe_radio = n.failsafe_radio) (h2 : t.flags.initialize_done = true)
    (h3 : t.flags.armed = n.armed) (h4 : t.flags.ekf_bad = n.ekf_bad)
    (h5 : n.vehicle_lost = false) (h6 : n.failsafe_battery = false) :
    update_triggers n t = t := by
  unfold update_triggers
  simp [h1, h2, h3, h4, h5, h6]

theorem radiolost_quiet_tick (H : Header) (n : Notify) (s t : Buzzer)
    (hq : QuietFor s n) (ht : isTick H t) (hp : t.pattern = RADIOLOST_BUZZ)
    (hr : t.flags.failsafe_radio = true) (hi : t.flags.initialize_done = true)
    (ha : t.flags.armed = s.flags.armed) (he : t.flags.ekf_bad = s.flags.ekf_bad) :
    update H n t = (update_pattern H n { t with counter := 0 }).1 := by
  obtain ⟨q1, q2, q3, q4, q5, q6⟩ := hq
  have h2 : (update_pattern H n { t with counter := 0 }).2 = false := by
    by_contra hc
    simp only [Bool.not_eq_false] at hc
    have := (update_pattern_snd H n { t with counter := 0 }).1 hc
    simp [hp] at this
  have hf := update_pattern_flags H n { t with counter := 0 }
  rw [update_of_tick H n t q6 ht, h2]
  simp only [Bool.false_eq_true, if_false]
  apply update_triggers_quiet
  · rw [hf, q1]; exact hr
  · rw [hf]; exact hi
  · rw [hf, q2]; exact ha
  · rw [hf, q3]; exact he
  · exact q4
  · exact q5

theorem radiolost_tick_not_armed (H : Header) (hM : 10 < H.patternCounterMod) (k : Nat)
    (n : Notify) (s t : Buzzer) (hk : k < 10) (hq : QuietFor s n) (ht : isTick H t)
    (hp : t.pattern = RADIOLOST_BUZZ) (hpc : t.pattern_counter = k)
    (hr : t.flags.failsafe_radio = true) (hi : t.flags.initialize_done = true)
    (ha : t.flags.armed = s.flags.armed) (he : t.flags.ekf_bad = s.flags.ekf_bad)
    (hw : t.flags.was_armed = false) :
    (update H n t).pattern = (if k + 1 < 10 then RADIOLOST_BUZZ else NONE) ∧
    (update H n t).pattern_counter = k + 1 ∧
    (update H n t).flags.on_ = RADIOLOST_levels.getD k false ∧
    (update H n t).flags = { t.flags with on_ := (update H n t).flags.on_ } := by
  have hm : (k + 1) % H.patternCounterMod = k + 1 := Nat.mod_eq_of_lt (by omega)
  rw [radiolost_quiet_tick H n s t hq ht hp hr hi ha he]
  refine ⟨?_, ?_, ?_, update_pattern_flags H n _⟩ <;>
    simp only [update_pattern, hp, hpc, hm] <;>
    interval_cases k <;> simp_all [RADIOLOST_levels, on__flags]

theorem radiolost_tick_armed (H : Header) (hM : 20 < H.patternCounterMod) (k : Nat)
    (n : Notify) (s t : Buzzer) (hk : k < 20) (hq : QuietFor s n) (ht : isTick H t)
    (hp : t.pattern = RADIOLOST_BUZZ) (hpc : t.pattern_counter = k)
    (hr : t.flags.failsafe_radio = true) (hi : t.flags.initialize_done = true)
    (ha : t.flags.armed = s.flags.armed) (he : t.flags.ekf_bad = s.flags.ekf_bad)
    (hw : t.flags.was_armed = true) :
    (update H n t).pattern = RADIOLOST_BUZZ ∧
    (update H n t).pattern_counter = (if k + 1 < 20 then k + 1 else 0) ∧
    (update H n t).flags.on_ = RADIOLOST_levels.getD k false ∧
    (update H n t).flags = { t.flags with on_ := (update H n t).flags.on_ } := by
  have hm : (k + 1) % H.patternCounterMod = k + 1 := Nat.mod_eq_of_lt (by omega)
  rw [radiolost_quiet_tick H n s t hq ht hp hr hi ha he]
  refine ⟨?_, ?_, ?_, update_pattern_flags H n _⟩ <;>
    simp only [update_pattern, hp, hpc, hm] <;>
    interval_cases k <;> simp_all [RADIOLOST_levels, on__flags]

/-- C15: what the code does where the claim fails.  From `BARO_GLITCH` at step 0,
along calls of `update` without an arming-failed event, after decimated tick
`k`, for `k` from 1 to 10, the output level is entry `k` of on, off, on, off,
on, off, on, off, on, off, and the pattern is `BARO_GLITCH` for `k` up to 9 and
`NONE` for `k = 10`: five pulses, the fifth at tick 9, and the end at tick 10. -/
theorem C15_baro_glitch_code_table (H : Header) (hc : 5 < H.counterMod)
    (hM : 10 < H.patternCounterMod) (s : Buzzer) (hp : s.pattern = BARO_GLITCH)
    (hs : s.pattern_counter = 0) (hcnt : s.counter < 5)
    (l : List Notify) (k : Nat) (haf : ∀ n ∈ l, n.arming_failed = false)
    (hk : (s.counter + l.length) / 5 = k) (hk1 : 1 ≤ k) (hk10 : k ≤ 10) :
    BARO_GLITCH_levels[k - 1]? = some (run H s l).flags.on_ ∧
    (run H s l).pattern = (if k < 10 then BARO_GLITCH else NONE) := by
  have h := run_ticks H hc (fun n => n.arming_failed = false)
    (fun k t => t.pattern = (if k < 10 then BARO_GLITCH else NONE) ∧
      (k < 10 → t.pattern_counter = k) ∧
      (1 ≤ k → t.flags.on_ = BARO_GLITCH_levels.getD (k - 1) false)) 10
    (fun n hn => hn) (fun k t c h => h)
    (fun k n t hk hn ht hP => by
      have hpt : t.pattern = BARO_GLITCH := by rw [hP.1, if_pos hk]
      obtain ⟨a, b, c⟩ := baro_glitch_tick H hM k n t hk hn ht hpt (hP.2.1 hk)
      exact ⟨a, fun _ => b, fun _ => by simpa using c⟩)
    s hcnt ⟨by simp [hp], fun _ => hs, fun h => by omega⟩ l haf (by omega)
  rw [hk] at h
  refine ⟨?_, h.1⟩
  rw [h.2.2 hk1]
  interval_cases k <;> simp [BARO_GLITCH_levels]

/-- C15, witness: after the ninth decimated tick of `BARO_GLITCH` (41 calls from
counter 4) the output is on and the pattern is still `BARO_GLITCH`. -/
theorem C15_witness :
    (4 + 41) / 5 = 9 ∧
    BARO_GLITCH_levels[8]? = some (run Header.std { idle4 with pattern := BARO_GLITCH }
      (List.replicate 41 quiet)).flags.on_ ∧
    (run Header.std { idle4 with pattern := BARO_GLITCH } (List.replicate 41 quiet)).pattern
      = (if 9 < 10 then BARO_GLITCH else NONE) :=
  ⟨by decide,
   C15_baro_glitch_code_table Header.std (by decide) (by decide)
    { idle4 with pattern := BARO_GLITCH } rfl rfl (by decide) (List.replicate 41 quiet) 9
    (fun n hn => by rw [List.eq_of_mem_replicate hn]; rfl) (by decide) (by decide) (by decide)⟩

/-- C16, counterexample: from `RADIOLOST_BUZZ` at step 0 with quiet inputs, after
the second decimated tick the output is off, the pattern still being
`RADIOLOST_BUZZ`. -/
theorem C16_counterexample :
    lost_start.pattern = RADIOLOST_BUZZ ∧ lost_start.pattern_counter = 0 ∧
    lost_start.flags.failsafe_radio = true ∧ lost_start.flags.initialize_done = true ∧
    QuietFor lost_start radio_quiet ∧
    (lost_start.counter + (radio_quiet :: radio_quiet4 ++ [radio_quiet]).length) / 5 = 2 ∧
    (run Header.std lost_start (radio_quiet :: radio_quiet4 ++ [radio_quiet])).flags.on_
      = false ∧
    (run Header.std lost_start (radio_quiet :: radio_quiet4 ++ [radio_quiet])).pattern
      = RADIOLOST_BUZZ := by
  decide

/-- C16 (amended): the step table of `RADIOLOST_BUZZ`.  From `RADIOLOST_BUZZ` at
step 0, with the radio failsafe and the initialisation latched, along calls of
`update` on quiet inputs: after decimated tick `k`, for `k` from 1 to 10, the
output level is entry `k` of on, off, on, on, on, on, on, on, on, off, that is
on after tick 1, off after tick 2, on after ticks 3 to 9 and off after tick
10.  If `was_armed` is clear the pattern is `RADIOLOST_BUZZ` after ticks 1 to 9
and `NONE` after tick 10.  If `was_armed` is set the pattern stays
`RADIOLOST_BUZZ` with the step equal to the number of ticks, the output is off
after ticks 10 to 20, and the step is 0 after tick 20. -/
theorem C16_radiolost_step_table (H : Header) (hc : 5 < H.counterMod)
    (hM : 20 < H.patternCounterMod) (s : Buzzer) (hp : s.pattern = RADIOLOST_BUZZ)
    (hs : s.pattern_counter = 0) (hcnt : s.counter < 5)
    (hr : s.flags.failsafe_radio = true) (hi : s.flags.initialize_done = true) :
    (∀ (l : List Notify) (k : Nat), (∀ n ∈ l, QuietFor s n) →
      (s.counter + l.length) / 5 = k → 1 ≤ k → k ≤ 10 →
      RADIOLOST_levels[k - 1]? = some (run H s l).flags.on_ ∧
      (s.flags.was_armed = false →
        (run H s l).pattern = (if k < 10 then RADIOLOST_BUZZ else NONE)) ∧
      (s.flags.was_armed = true →
        (run H s l).pattern = RADIOLOST_BUZZ ∧ (run H s l).pattern_counter = k)) ∧
    (∀ (l : List Notify) (k : Nat), (∀ n ∈ l, QuietFor s n) →
      (s.counter + l.length) / 5 = k → 10 ≤ k → k ≤ 20 → s.flags.was_armed = true →
      (run H s l).flags.on_ = false ∧ (run H s l).pattern = RADIOLOST_BUZZ ∧
      (run H s l).pattern_counter = (if k < 20 then k else 0)) := by
  have hnot : s.flags.was_armed = false → ∀ (l : List Notify) (k : Nat),
      (∀ n ∈ l, QuietFor s n) → (s.counter + l.length) / 5 = k → k ≤ 10 →
      (run H s l).pattern = (if k < 10 then RADIOLOST_BUZZ else NONE) ∧
      (1 ≤ k → (run H s l).flags.on_ = RADIOLOST_levels.getD (k - 1) false) := by
    intro hw l k hq hk hk10
    have h := run_ticks H hc (QuietFor s)
      (fun k t => (t.flags.failsafe_radio = true ∧ t.flags.initialize_done = true ∧
          t.flags.armed = s.flags.armed ∧ t.flags.ekf_bad = s.flags.ekf_bad ∧
          t.flags.was_armed = false) ∧
        t.pattern = (if k < 10 then RADIOLOST_BUZZ else NONE) ∧
        (k < 10 → t.pattern_counter = k) ∧
        (1 ≤ k → t.flags.on_ = RADIOLOST_levels.getD (k - 1) false)) 10
      (fun n hn => hn.2.2.2.2.2) (fun k t c h => h)
      (fun k n t hk hn ht hP => by
        obtain ⟨⟨f1, f2, f3, f4, f5⟩, hpt, hpc, _⟩ := hP
        rw [if_pos hk] at hpt
        obtain ⟨a, b, c, d⟩ :=
          radiolost_tick_not_armed H (by omega) k n s t hk hn ht hpt (hpc hk) f1 f2 f3 f4 f5
        refine ⟨?_, a, fun _ => b, fun _ => by simpa using c⟩
        rw [d]
        exact ⟨f1, f2, f3, f4, f5⟩)
      s hcnt ⟨⟨hr, hi, rfl, rfl, hw⟩, by simp [hp], fun _ => hs, fun h => by omega⟩ l hq
      (by omega)
    rw [hk] at h
    exact ⟨h.2.1, h.2.2.2⟩
  have harm : s.flags.was_armed = true → ∀ (l : List Notify) (k : Nat),
      (∀ n ∈ l, QuietFor s n) → (s.counter + l.length) / 5 = k → k ≤ 20 →
      (run H s l).pattern = RADIOLOST_BUZZ ∧
      (run H s l).pattern_counter = (if k < 20 then k else 0) ∧
      (1 ≤ k → (run H s l).flags.on_ = RADIOLOST_levels.getD (k - 1) false) := by
    intro hw l k hq hk hk20
    have h := run_ticks H hc (QuietFor s)
      (fun k t => (t.flags.failsafe_radio = true ∧ t.flags.initialize_done = true ∧
          t.flags.armed = s.flags.armed ∧ t.flags.ekf_bad = s.flags.ekf_bad ∧
          t.flags.was_armed = true) ∧
        t.pattern = RADIOLOST_BUZZ ∧
        t.pattern_counter = (if k < 20 then k else 0) ∧
        (1 ≤ k → t.flags.on_ = RADIOLOST_levels.getD (k - 1) false)) 20
      (fun n hn => hn.2.2.2.2.2) (fun k t c h => h)
      (fun k n t hk hn ht hP => by
        obtain ⟨⟨f1, f2, f3, f4, f5⟩, hpt, hpc, _⟩ := hP
        rw [if_pos hk] at hpc
        obtain ⟨a, b, c, d⟩ :=
          radiolost_tick_armed H hM k n s t hk hn ht hpt hpc f1 f2 f3 f4 f5
        refine ⟨?_, a, b, fun _ => by simpa using c⟩
        rw [d]
        exact ⟨f1, f2, f3, f4, f5⟩)
      s hcnt ⟨⟨hr, hi, rfl, rfl, hw⟩, hp, by simp [hs], fun h => by omega⟩ l hq (by omega)
    rw [hk] at h
    exact ⟨h.2.1, h.2.2.1, h.2.2.2⟩
  constructor
  · intro l k hq hk hk1 hk10
    have hlev : RADIOLOST_levels[k - 1]? = some (run H s l).flags.on_ := by
      cases hw : s.flags.was_armed
      · rw [(hnot hw l k hq hk hk10).2 hk1]
        interval_cases k <;> simp [RADIOLOST_levels]
      · rw [(harm hw l k hq hk (by omega)).2.2 hk1]
        interval_cases k <;> simp [RADIOLOST_levels]
    refine ⟨hlev, fun hw => (hnot hw l k hq hk hk10).1, fun hw => ?_⟩
    have h := harm hw l k hq hk (by omega)
    refine ⟨h.1, ?_⟩
    rw [h.2.1, if_pos (by omega)]
  · intro l k hq hk hk10 hk20 hw
    have h := harm hw l k hq hk hk20
    refine ⟨?_, h.1, h.2.1⟩
    rw [h.2.2 (by omega)]
    interval_cases k <;> simp [RADIOLOST_levels]

/-- C16, witness: `RADIOLOST_BUZZ` started on an armed vehicle; after the second
decimated tick the output is off, entry 2 of the table. -/
theorem C16_witness :
    RADIOLOST_levels[2 - 1]? = some
      (run Header.std lost_start (radio_quiet :: radio_quiet4 ++ [radio_quiet])).flags.on_ ∧
    (run Header.std lost_start (radio_quiet :: radio_quiet4 ++ [radio_quiet])).pattern
      = RADIOLOST_BUZZ :=
  have h := (C16_radiolost_step_table Header.std (by decide) (by decide) lost_start rfl rfl
    (by decide) rfl rfl).1 (radio_quiet :: radio_quiet4 ++ [radio_quiet]) 2 (by decide)
    (by decide) (by decide) (by decide)
  ⟨h.1, (h.2.2 rfl).1⟩

/-! ### The arming buzz over many ticks -/

/-- A decimated tick on `ARMING_BUZZ`, whatever the step it finds. -/
theorem arming_tick (H : Header) (n : Notify) (s : Buzzer)
    (hp : s.pattern = ARMING_BUZZ) (haf : n.arming_failed = false) (ht : isTick H s) :
    update H n s =
      if (s.pattern_counter + 1) % H.patternCounterMod = 1 then
        on_ true { s with counter := 0,
                          pattern_counter := (s.pattern_counter + 1) % H.patternCounterMod,
                          arming_buzz_start_ms := n.millis }
      else if (n.millis + H.millisMod - s.arming_buzz_start_ms) % H.millisMod
          ≥ BUZZER_ARMING_BUZZ_MS then
        { on_ false { s with counter := 0,
                             pattern_counter := (s.pattern_counter + 1) % H.patternCounterMod,
                             arming_buzz_start_ms := 0 } with pattern := NONE }
      else { s with counter := 0,
                    pattern_counter := (s.pattern_counter + 1) % H.patternCounterMod } := by
  rw [update_of_tick_returning H n s (by simp [hp]) haf ht]
  simp only [update_pattern, hp]
  simp
  split
  · rfl
  · split <;> simp

/-- With a clock that stands at 0, `ARMING_BUZZ` never ends: after `k` decimated
ticks it is still active with the step at `k` modulo the width of its type and,
from the first tick on, start 0 and the output high. -/
theorem arming_frozen_clock (H : Header) (hc : 5 < H.counterMod)
    (hM : 1 < H.patternCounterMod) (s : Buzzer) (hp : s.pattern = ARMING_BUZZ)
    (hs : s.pattern_counter = 0) (hcnt : s.counter < 5) (l : List Notify)
    (hl : ∀ n ∈ l, n.arming_failed = false ∧ n.millis = 0) :
    (run H s l).pattern = ARMING_BUZZ ∧
    (run H s l).pattern_counter = ((s.counter + l.length) / 5) % H.patternCounterMod ∧
    (1 ≤ (s.counter + l.length) / 5 →
      (run H s l).arming_buzz_start_ms = 0 ∧ (run H s l).flags.on_ = true) := by
  have h1 : 1 % H.patternCounterMod = 1 := Nat.mod_eq_of_lt hM
  exact run_ticks H hc (fun n => n.arming_failed = false ∧ n.millis = 0)
    (fun k t => t.pattern = ARMING_BUZZ ∧ t.pattern_counter = k % H.patternCounterMod ∧
      (1 ≤ k → t.arming_buzz_start_ms = 0 ∧ t.flags.on_ = true))
    ((s.counter + l.length) / 5)
    (fun n hn => hn.1) (fun k t c h => h)
    (fun k n t _ hn ht hP => by
      obtain ⟨hpt, hpc, hk1⟩ := hP
      have hstep : (t.pattern_counter + 1) % H.patternCounterMod
          = (k + 1) % H.patternCounterMod := by
        rw [hpc, Nat.mod_add_mod]
      rw [arming_tick H n t hpt hn.1 ht, hstep]
      by_cases h : (k + 1) % H.patternCounterMod = 1
      · rw [if_pos h]
        simp [hpt, hn.2, h]
      · have hk : 1 ≤ k := by
          rcases Nat.eq_zero_or_pos k with h0 | h0
          · rw [h0] at h; exact absurd h1 h
          · exact h0
        have hel : ¬ (n.millis + H.millisMod - t.arming_buzz_start_ms) % H.millisMod
            ≥ BUZZER_ARMING_BUZZ_MS := by
          rw [hn.2, (hk1 hk).1]
          simp [BUZZER_ARMING_BUZZ_MS]
        rw [if_neg h, if_neg hel]
        exact ⟨hpt, rfl, fun _ => hk1 hk⟩)
    s hcnt ⟨hp, by rw [hs]; simp, fun h => by omega⟩ l hl (le_refl _)

/-- While `ARMING_BUZZ` is held (step above 0, output high), calls whose clock
readings are all less than 3000 ms after the start keep it held, for as many
decimated ticks as the step counter counts without wrapping. -/
theorem arming_run_holds_ticks (H : Header) (hc : 5 < H.counterMod)
    (hms : H.millisMod = 2 ^ 32) (s : Buzzer) (hp : s.pattern = ARMING_BUZZ)
    (h0 : 0 < s.pattern_counter) (hst : s.arming_buzz_start_ms < 2 ^ 32)
    (hon : s.flags.on_ = true) (hcnt : s.counter < 5) (l : List Notify)
    (hl : ∀ n ∈ l, n.arming_failed = false ∧
      elapsed32 n.millis s.arming_buzz_start_ms < 3000)
    (hb : s.pattern_counter + (s.counter + l.length) / 5 < H.patternCounterMod) :
    (run H s l).flags.on_ = true ∧ (run H s l).pattern = ARMING_BUZZ ∧
    (run H s l).arming_buzz_start_ms = s.arming_buzz_start_ms := by
  have h := run_ticks H hc
    (fun n => n.arming_failed = false ∧ elapsed32 n.millis s.arming_buzz_start_ms < 3000)
    (fun k t => t.pattern = ARMING_BUZZ ∧ t.pattern_counter = s.pattern_counter + k ∧
      t.arming_buzz_start_ms = s.arming_buzz_start_ms ∧ t.flags.on_ = true)
    ((s.counter + l.length) / 5)
    (fun n hn => hn.1) (fun k t c h => h)
    (fun k n t hk hn ht hP => by
      obtain ⟨hpt, hpc, hstt, hont⟩ := hP
      have hlt : ¬ (n.millis + H.millisMod - t.arming_buzz_start_ms) % H.millisMod
          ≥ BUZZER_ARMING_BUZZ_MS := by
        rw [elapsed32_iff H hms n.millis _ (by rw [hstt]; exact hst), hstt]
        have := hn.2
        omega
      rw [arming_later_tick H n t hpt (by omega) (by omega) hn.1 ht, if_neg hlt,
        Nat.mod_eq_of_lt (by omega)]
      exact ⟨hpt, by simp [hpc]; omega, hstt, hont⟩)
    s hcnt ⟨hp, rfl, rfl, hon⟩ l hl (le_refl _)
  exact ⟨h.2.2.2, h.1, h.2.2.1⟩

/-- With a clock that does not go backwards and does not wrap, `ARMING_BUZZ` with
the output high stays so along calls whose clock readings are all less than
3000 ms after `t0`, a time not after the recorded start, whatever the number of
calls and of decimated ticks. -/
theorem arming_run_monotone (H : Header) (hms : H.millisMod = 2 ^ 32) (t0 : Nat)
    (l : List Notify) :
    ∀ s : Buzzer, s.pattern = ARMING_BUZZ → s.flags.on_ = true →
      t0 ≤ s.arming_buzz_start_ms →
      (∀ n ∈ l, n.arming_failed = false ∧ s.arming_buzz_start_ms ≤ n.millis ∧
        n.millis < t0 + 3000 ∧ n.millis < 2 ^ 32) →
      l.Pairwise (fun a b => a.millis ≤ b.millis) →
      (run H s l).flags.on_ = true ∧ (run H s l).pattern = ARMING_BUZZ := by
  induction l with
  | nil => intro s hp hon _ _ _; exact ⟨hon, hp⟩
  | cons n l ih =>
    intro s hp hon ht0 hl hpw
    obtain ⟨haf, hsn, hn3, hn32⟩ := hl n (List.mem_cons_self n l)
    have hl' := fun m hm => hl m (List.mem_cons_of_mem n hm)
    rw [List.pairwise_cons] at hpw
    rw [run]
    by_cases ht : isTick H s
    · rw [arming_tick H n s hp haf ht]
      by_cases h1 : (s.pattern_counter + 1) % H.patternCounterMod = 1
      · rw [if_pos h1]
        apply ih _ (by simp [hp]) (by simp) (by simp; omega) _ hpw.2
        intro m hm
        obtain ⟨a, _, c, d⟩ := hl' m hm
        exact ⟨a, by simpa using hpw.1 m hm, c, d⟩
      · have hel : ¬ (n.millis + H.millisMod - s.arming_buzz_start_ms) % H.millisMod
            ≥ BUZZER_ARMING_BUZZ_MS := by
          rw [hms]
          unfold BUZZER_ARMING_BUZZ_MS
          norm_num at hn32 ⊢
          omega
        rw [if_neg h1, if_neg hel]
        exact ih _ hp hon ht0 hl' hpw.2
    · rw [update_of_not_tick H n s haf ht]
      exact ih _ hp hon ht0 hl' hpw.2

/-- C5, counterexample: with 8-bit counters and a 32-bit clock, `ARMING_BUZZ` is
started at step 0 and 1280 calls are made with the clock standing at 0.  The
first decimated tick records start 0; after 256 decimated ticks the pattern is
still `ARMING_BUZZ` with start 0 and the output high, the step having wrapped
to 0.  The next call is the 257th decimated tick, at time 3000, so that
`(t - start) mod 2^32 >= 3000`; it does not drive the output low and does not
end the pattern, it records 3000 as a new start. -/
theorem C5_counterexample :
    arm_start.pattern = ARMING_BUZZ ∧ arm_start.pattern_counter = 0 ∧
    (∀ n ∈ frozen1280, n.arming_failed = false) ∧
    (update Header.std quiet arm_start).arming_buzz_start_ms = 0 ∧
    (arm_start.counter + frozen1280.length) / 5 = 256 ∧
    (run Header.std arm_start frozen1280).pattern = ARMING_BUZZ ∧
    (run Header.std arm_start frozen1280).arming_buzz_start_ms = 0 ∧
    (run Header.std arm_start frozen1280).flags.on_ = true ∧
    isTick Header.std (run Header.std arm_start frozen1280) ∧
    elapsed32 3000 (run Header.std arm_start frozen1280).arming_buzz_start_ms ≥ 3000 ∧
    (update Header.std { quiet with millis := 3000 }
      (run Header.std arm_start frozen1280)).flags.on_ = true ∧
    (update Header.std { quiet with millis := 3000 }
      (run Header.std arm_start frozen1280)).pattern = ARMING_BUZZ ∧
    (update Header.std { quiet with millis := 3000 }
      (run Header.std arm_start frozen1280)).arming_buzz_start_ms = 3000 := by
  have hq : ∀ n ∈ frozen1280, n.arming_failed = false ∧ n.millis = 0 := fun n hn => by
    rw [List.eq_of_mem_replicate hn]; exact ⟨rfl, rfl⟩
  have hL : frozen1280.length = 1280 := by
    unfold frozen1280
    exact List.length_replicate _ _
  have hc4 : arm_start.counter = 4 := rfl
  have hlen : (arm_start.counter + frozen1280.length) / 5 = 256 := by rw [hc4, hL]
  have h := arming_frozen_clock Header.std (by decide) (by decide) arm_start rfl rfl
    (by decide) frozen1280 hq
  rw [hlen] at h
  obtain ⟨hp, hpc, hso⟩ := h
  obtain ⟨hst, hon⟩ := hso (by decide)
  have hpc0 : (run Header.std arm_start frozen1280).pattern_counter = 0 := by
    rw [hpc]; decide
  have hcn : (run Header.std arm_start frozen1280).counter = 4 := by
    rw [run_counter Header.std (by decide) frozen1280 arm_start (by decide), hc4, hL]
  have ht : isTick Header.std (run Header.std arm_start frozen1280) :=
    isTick_of_counter_eq_four Header.std (by decide) _ hcn
  have hu := arming_first_tick Header.std { quiet with millis := 3000 }
    (run Header.std arm_start frozen1280) (by decide) hp hpc0 rfl ht
  refine ⟨rfl, rfl, fun n hn => (hq n hn).1, by decide, hlen, hp, hst, hon, ht, ?_, ?_, ?_, ?_⟩
  · rw [hst]; decide
  · rw [hu]; simp
  · rw [hu]; simp [hp]
  · rw [hu]; simp

/-- C5 (amended): the arming buzz, with a 32-bit millisecond clock and no
arming-failed event.  (1) A decimated tick that finds `ARMING_BUZZ` at step 0,
the first tick after the start and again the tick after the step counter has
wrapped to 0, records the current time as start and drives the output high,
the pattern staying `ARMING_BUZZ`.  (2) A decimated tick at time `t` that finds
it at a step above 0 drives the output low and ends the pattern if and only if
`(t - start) mod 2^32 >= 3000`; otherwise output level, pattern, start and the
log of hardware calls are as at entry.  (3) No call takes the output from high
to low under `ARMING_BUZZ` unless `(t - start) mod 2^32 >= 3000` for the start
recorded last.  (4) With any clock readings, once the buzz is held (step above
0, output high), along calls whose readings are all less than 3000 ms after
the start the output is still high and the pattern still `ARMING_BUZZ`, for as
many decimated ticks as the step counter counts without wrapping.  (5) With a
clock that does not go backwards and does not wrap, the same holds whatever the
number of calls and of decimated ticks: while every reading is less than
3000 ms after a time `t0` not after the recorded start, the output is high and
the pattern `ARMING_BUZZ`. -/
theorem C5_arming_buzz_three_seconds (H : Header) (hms : H.millisMod = 2 ^ 32)
    (hM : 1 < H.patternCounterMod) :
    (∀ (n : Notify) (s : Buzzer), s.pattern = ARMING_BUZZ → s.pattern_counter = 0 →
      n.arming_failed = false → isTick H s →
      (update H n s).arming_buzz_start_ms = n.millis ∧ (update H n s).flags.on_ = true ∧
      (update H n s).pattern = ARMING_BUZZ ∧ (update H n s).pattern_counter = 1) ∧
    (∀ (n : Notify) (s : Buzzer), s.pattern = ARMING_BUZZ → 0 < s.pattern_counter →
      s.pattern_counter < H.patternCounterMod → s.arming_buzz_start_ms < 2 ^ 32 →
      n.arming_failed = false → isTick H s →
      (((update H n s).flags.on_ = false ∧ (update H n s).pattern = NONE) ↔
        elapsed32 n.millis s.arming_buzz_start_ms ≥ 3000) ∧
      (¬ elapsed32 n.millis s.arming_buzz_start_ms ≥ 3000 →
        (update H n s).flags.on_ = s.flags.on_ ∧ (update H n s).pattern = ARMING_BUZZ ∧
        (update H n s).arming_buzz_start_ms = s.arming_buzz_start_ms ∧
        (update H n s).hal = s.hal)) ∧
    (∀ (n : Notify) (s : Buzzer), s.pattern = ARMING_BUZZ →
      s.pattern_counter < H.patternCounterMod → s.arming_buzz_start_ms < 2 ^ 32 →
      n.arming_failed = false → s.flags.on_ = true → (update H n s).flags.on_ = false →
      elapsed32 n.millis s.arming_buzz_start_ms ≥ 3000) ∧
    (∀ (l : List Notify) (s : Buzzer), 5 < H.counterMod → s.counter < 5 →
      s.pattern = ARMING_BUZZ → 0 < s.pattern_counter →
      s.arming_buzz_start_ms < 2 ^ 32 → s.flags.on_ = true →
      (∀ n ∈ l, n.arming_failed = false ∧ elapsed32 n.millis s.arming_buzz_start_ms < 3000) →
      s.pattern_counter + (s.counter + l.length) / 5 < H.patternCounterMod →
      (run H s l).flags.on_ = true ∧ (run H s l).pattern = ARMING_BUZZ) ∧
    (∀ (l : List Notify) (s : Buzzer) (t0 : Nat), s.pattern = ARMING_BUZZ →
      s.flags.on_ = true → t0 ≤ s.arming_buzz_start_ms →
      (∀ n ∈ l, n.arming_failed = false ∧ s.arming_buzz_start_ms ≤ n.millis ∧
        n.millis < t0 + 3000 ∧ n.millis < 2 ^ 32) →
      l.Pairwise (fun a b => a.millis ≤ b.millis) →
      (run H s l).flags.on_ = true ∧ (run H s l).pattern = ARMING_BUZZ) := by
  refine ⟨?_, ?_, ?_, ?_, ?_⟩
  · intro n s hp hs haf ht
    rw [arming_first_tick H n s hM hp hs haf ht]
    simp [hp]
  · intro n s hp h0 hr hst haf ht
    have hiff := elapsed32_iff H hms n.millis _ hst
    rw [arming_later_tick H n s hp h0 hr haf ht]
    by_cases hc : (n.millis + H.millisMod - s.arming_buzz_start_ms) % H.millisMod
        ≥ BUZZER_ARMING_BUZZ_MS
    · have he := hiff.1 hc
      rw [if_pos hc]
      simp [he]
    · have he : ¬ elapsed32 n.millis s.arming_buzz_start_ms ≥ 3000 := fun h => hc (hiff.2 h)
      rw [if_neg hc]
      simp [he, hp]
  · intro n s hp hr hst haf hon hoff
    by_cases ht : isTick H s
    · rcases Nat.eq_zero_or_pos s.pattern_counter with h0 | h0
      · rw [arming_first_tick H n s hM hp h0 haf ht] at hoff
        simp at hoff
      · rw [arming_later_tick H n s hp h0 hr haf ht] at hoff
        by_contra he
        rw [if_neg (fun h => he ((elapsed32_iff H hms n.millis _ hst).1 h))] at hoff
        simp [hon] at hoff
    · rw [update_of_not_tick H n s haf ht] at hoff
      simp [hon] at hoff
  · intro l s hc hcnt hp h0 hst hon hl hb
    have h := arming_run_holds_ticks H hc hms s hp h0 hst hon hcnt l hl hb
    exact ⟨h.1, h.2.1⟩
  · intro l s t0 hp hon ht0 hl hpw
    exact arming_run_monotone H hms t0 l s hp hon ht0 hl hpw

/-- C5, witness: with 8-bit counters and a 32-bit clock, the first decimated tick
of `ARMING_BUZZ` at time 1234 records 1234; held from 1234, a decimated tick at
time 4234 drives the output low and ends the pattern, one at time 4233 leaves
the output high and the pattern active, and so do a decimated tick and four
calls at times 2000 to 4000. -/
theorem C5_witness :
    (update Header.std { quiet with millis := 1234 } arm_start).arming_buzz_start_ms = 1234 ∧
    ((update Header.std { quiet with millis := 4234 } arm_held).flags.on_ = false ∧
      (update Header.std { quiet with millis := 4234 } arm_held).pattern = NONE) ∧
    ((update Header.std { quiet with millis := 4233 } arm_held).flags.on_ = arm_held.flags.on_ ∧
      (update Header.std { quiet with millis := 4233 } arm_held).pattern = ARMING_BUZZ) ∧
    (run Header.std arm_held
      [{ quiet with millis := 2000 }, { quiet with millis := 2500 },
       { quiet with millis := 3000 }, { quiet with millis := 3500 },
       { quiet with millis := 4000 }]).flags.on_ = true :=
  have h := C5_arming_buzz_three_seconds Header.std rfl (by decide)
  ⟨(h.1 { quiet with millis := 1234 } arm_start rfl rfl rfl (by decide)).1,
   ((h.2.1 { quiet with millis := 4234 } arm_held rfl (by decide) (by decide) (by decide) rfl
      (by decide)).1).2 (by decide),
   have h2 := (h.2.1 { quiet with millis := 4233 } arm_held rfl (by decide) (by decide)
      (by decide) rfl (by decide)).2 (by decide)
   ⟨h2.1, h2.2.1⟩,
   (h.2.2.2.2 [{ quiet with millis := 2000 }, { quiet with millis := 2500 },
       { quiet with millis := 3000 }, { quiet with millis := 3500 },
       { quiet with millis := 4000 }] arm_held 1234 rfl rfl (by decide) (by decide)
      (by decide)).1⟩

end Buzzer
